import Mathlib

/-!
Verification development for the conversational insurance form-filler
(travel and family products).  The definitions below are a shallow
embedding of the Python sources: session state becomes an explicit
`Store` structure, each agent turn becomes a function from message and
store to an outcome, Python exceptions become explicit `raised`
constructors, and Python truthiness is modelled by dedicated helpers.
-/

namespace Hlas

/-- Truthiness of an optional string, as Python sees it: `None` and the
empty string are falsy. -/
def optStrTruthy : Option String → Bool
  | none => false
  | some s => !s.isEmpty

/-- Python substring test `needle in hay`. -/
def containsSub (hay needle : String) : Bool :=
  hay.toList.tails.any fun t => needle.toList.isPrefixOf t

/-- Python `s.strip()` (on the whitespace characters Lean knows). -/
def pyStrip (s : String) : String :=
  ⟨((s.toList.dropWhile Char.isWhitespace).reverse.dropWhile Char.isWhitespace).reverse⟩

/-- Python `s.lower()` (ASCII letters). -/
def pyLower (s : String) : String :=
  ⟨s.toList.map Char.toLower⟩

/-- Split a character list on a separator character; the result always
has at least one (possibly empty) part. -/
def splitChar (sep : Char) : List Char → List (List Char)
  | [] => [[]]
  | c :: rest =>
    let r := splitChar sep rest
    if c = sep then [] :: r
    else
      match r with
      | [] => [[c]]
      | h :: t => (c :: h) :: t

/-- Python `s.split(',')`. -/
def pySplitComma (s : String) : List String :=
  (splitChar ',' s.toList).map fun l => ⟨l⟩

/-- Left-to-right non-overlapping replacement with explicit fuel (one
unit per consumed character). -/
def replaceAux (old new : List Char) : Nat → List Char → List Char
  | _, [] => []
  | 0, l => l
  | fuel + 1, c :: rest =>
    if old ≠ [] ∧ old.isPrefixOf (c :: rest) then
      new ++ replaceAux old new fuel ((c :: rest).drop old.length)
    else
      c :: replaceAux old new fuel rest

/-- Python `s.replace(old, new)` for nonempty `old`. -/
def pyReplace (s old new : String) : String :=
  ⟨replaceAux old.toList new.toList s.toList.length s.toList⟩

/-- Python `s.startswith(pre)`. -/
def pyStartsWith (s pre : String) : Bool :=
  pre.toList.isPrefixOf s.toList

/-- Digit runs possibly separated by single underscores, beginning and
ending with a digit: the shape Python `int` accepts after the sign. -/
def digitsUS : List Char → Bool
  | [] => false
  | [c] => c.isDigit
  | c :: '_' :: rest => c.isDigit && digitsUS rest
  | c :: rest => c.isDigit && digitsUS rest

/-- Numeric value of a digit list (underscores removed beforehand). -/
def digitsVal (l : List Char) : Nat :=
  l.foldl (fun a c => a * 10 + (c.toNat - 48)) 0

/-- Python `int(s)`: strip whitespace, optional sign, digits with
optional single underscores.  `none` models a raised `ValueError`. -/
def pyInt (s : String) : Option Int :=
  let t := pyStrip s
  let signRest : Int × List Char :=
    match t.toList with
    | '+' :: r => (1, r)
    | '-' :: r => (-1, r)
    | r => (1, r)
  if digitsUS signRest.2 then
    some (signRest.1 * (digitsVal (signRest.2.filter (· ≠ '_')) : Int))
  else none

/-- Leap years of the proleptic Gregorian calendar. -/
def isLeap (y : Nat) : Bool :=
  y % 4 = 0 && (y % 100 ≠ 0 || y % 400 = 0)

/-- Month lengths for year `y`. -/
def monthDays (y : Nat) : List Nat :=
  [31, if isLeap y then 29 else 28, 31, 30, 31, 30, 31, 31, 30, 31, 30, 31]

/-- Length of month `m` of year `y`. -/
def daysInMonth (y m : Nat) : Nat :=
  ((monthDays y).getD (m - 1) 31)

/-- The month strings `strptime`'s `%m` accepts — the regex
`1[0-2]|0[1-9]|[1-9]`, required (by the dash that follows in the
format) to cover the whole token — with their values. -/
def monthOfToken : List Char → Option Nat
  | [c] => if '1' ≤ c ∧ c ≤ '9' then some (c.toNat - 48) else none
  | [c0, c1] =>
    if c0 = '0' ∧ '1' ≤ c1 ∧ c1 ≤ '9' then some (c1.toNat - 48)
    else if c0 = '1' ∧ '0' ≤ c1 ∧ c1 ≤ '2' then some (10 + (c1.toNat - 48))
    else none
  | _ => none

/-- The day strings `strptime`'s `%d` accepts — the regex
`3[01]|[12]\d|0[1-9]|[1-9]| [1-9]`, note the space-padded single-digit
alternative, required (by the unconverted-data check that follows the
match) to cover the whole token — with their values. -/
def dayOfToken : List Char → Option Nat
  | [c] => if '1' ≤ c ∧ c ≤ '9' then some (c.toNat - 48) else none
  | [c0, c1] =>
    if c0 = '3' ∧ '0' ≤ c1 ∧ c1 ≤ '1' then some (30 + (c1.toNat - 48))
    else if ('1' ≤ c0 ∧ c0 ≤ '2') ∧ ('0' ≤ c1 ∧ c1 ≤ '9') then
      some ((c0.toNat - 48) * 10 + (c1.toNat - 48))
    else if (c0 = '0' ∨ c0 = ' ') ∧ ('1' ≤ c1 ∧ c1 ≤ '9') then some (c1.toNat - 48)
    else none
  | _ => none

/-- `datetime.strptime(s, "%Y-%m-%d")`: exactly four year digits
(CPython's `%Y` pattern is `\d\d\d\d`), a dash, a month token, a dash,
a day token filling the rest of the string, and the composed date must
be constructible: year at least 1 (four digits bound it by 9999) and
day within the month's length.  `none` models a raised
`ValueError`. -/
def parseDate (s : String) : Option (Nat × Nat × Nat) :=
  match s.toList with
  | y1 :: y2 :: y3 :: y4 :: '-' :: rest =>
    if y1.isDigit ∧ y2.isDigit ∧ y3.isDigit ∧ y4.isDigit then
      let y := digitsVal [y1, y2, y3, y4]
      match splitChar '-' rest with
      | [mt, dt] =>
        match monthOfToken mt, dayOfToken dt with
        | some m, some d =>
          if 1 ≤ y ∧ d ≤ daysInMonth y m then some (y, m, d) else none
        | _, _ => none
      | _ => none
    else none
  | _ => none

/-- Days of the months of year `y` strictly before month `m`. -/
def daysBeforeMonth (y m : Nat) : Nat :=
  ((monthDays y).take (m - 1)).sum

/-- Day number of a proleptic Gregorian date, so that differences of
`rataDie` values match Python `(date2 - date1).days`. -/
def rataDie (y m d : Nat) : Nat :=
  365 * (y - 1) + (y - 1) / 4 - (y - 1) / 100 + (y - 1) / 400 +
    daysBeforeMonth y m + d

/-- `(end - start).days` for two parsed dates. -/
def dateDiff (a b : Nat × Nat × Nat) : Int :=
  (rataDie b.1 b.2.1 b.2.2 : Int) - (rataDie a.1 a.2.1 a.2.2 : Int)

/-- The hand-maintained destination table of
`travel_payload_agent.get_country_code_map`. -/
def getCountryCodeMap : List (String × String) :=
  [("albania", "ALB"), ("antarctica", "ATA"), ("argentina", "ARG"),
   ("australia", "AUS"), ("austria", "AUS"), ("bahrain", "BAH"),
   ("bangladesh", "BAN"), ("belgium", "BEL"), ("bhutan", "BTU"),
   ("bolivia", "BOL"), ("bosnia and herzegovina", "BIH"), ("brazil", "BRA"),
   ("brunei", "BRU"), ("bulgaria", "BUL"), ("cambodia", "CAM"),
   ("canada", "CAN"), ("cayman islands", "CYM"), ("chile", "CHL"),
   ("china (excluding inner mongolia)", "CHI"), ("colombia", "COL"),
   ("costa rica", "COS"), ("croatia", "HRV"), ("cruise to nowhere", "CRU"),
   ("cyprus", "CYP"), ("czech republic", "CZE"), ("denmark", "DEN"),
   ("egypt", "EGY"), ("estonia", "EST"), ("fiji", "FJI"),
   ("finland", "FIN"), ("france", "FRA"), ("french polynesia", "PYF"),
   ("germany", "GER"), ("greece", "GRE"), ("hong kong", "HKG"),
   ("hungary", "HUN"), ("iceland", "ICE"), ("india", "INN"),
   ("indonesia", "IND"), ("ireland", "IRE"), ("israel", "ISR"),
   ("italy", "ITA"), ("japan", "JPN"), ("jordan", "JOR"),
   ("kazakhstan", "KAZ"), ("kenya", "KEN"), ("korea", "KOR"),
   ("kuwait", "KUW"), ("kyrgyzstan", "KGZ"), ("laos", "LAO")]

/-- `country_map.get(name)`. -/
def countryLookup (name : String) : Option String :=
  getCountryCodeMap.lookup name

/-- `travel.number_of_travellers`. -/
structure Travellers where
  total : Option Int
  child : List Int
  adult : List Int
  group : Int
deriving DecidableEq

/-- `travel.selectedAddOns`: a key is present exactly when the add-on
question has been answered; the boolean is its `selected` value. -/
structure AddOns where
  preExAddOn : Option Bool
  lossFFMAddOn : Option Bool
  flightDelayAddOn : Option Bool
deriving DecidableEq

/-- One entry of `travel.households_info`: the derived
`with_children` and `with_spouse` strings. -/
structure HouseholdFlags where
  with_children : String
  with_spouse : String
deriving DecidableEq

/-- The `travel` sub-document of the travel payload. -/
structure TravelInfo where
  policy_type : String
  country_code : Option (List String)
  number_of_days : Option Int
  zone : Option String
  with_children : String
  with_spouse : String
  with_group_of_adults : String
  with_group_of_households : String
  plan : String
  selectedAddOns : AddOns
  number_of_travellers : Travellers
  households_info : Option (List HouseholdFlags)
deriving DecidableEq

/-- The travel payload document. -/
structure TravelPayload where
  productCode : String
  travel : TravelInfo
  coupon_code : Option String
  email : Option String
  contact_mobile : Option String
deriving DecidableEq

/-- `get_single_trip_template`. -/
def getSingleTripTemplate : TravelPayload :=
  { productCode := "TVP"
    travel :=
      { policy_type := "single"
        country_code := some []
        number_of_days := none
        zone := none
        with_children := "no"
        with_spouse := "no"
        with_group_of_adults := "no"
        with_group_of_households := "no"
        plan := "gold"
        selectedAddOns := ⟨none, none, none⟩
        number_of_travellers := ⟨none, [], [], 1⟩
        households_info := none }
    coupon_code := some ""
    email := none
    contact_mobile := none }

/-- `get_annual_trip_template`. -/
def getAnnualTripTemplate : TravelPayload :=
  { productCode := "TPX"
    travel :=
      { policy_type := "annual"
        country_code := none
        number_of_days := some 1
        zone := none
        with_children := "no"
        with_spouse := "no"
        with_group_of_adults := "no"
        with_group_of_households := "no"
        plan := "gold"
        selectedAddOns := ⟨none, none, none⟩
        number_of_travellers := ⟨none, [], [], 1⟩
        households_info := none }
    coupon_code := some ""
    email := none
    contact_mobile := none }

/-- The session's `conversation_context` mapping, with one optional
slot per key the agents use. -/
structure Ctx where
  current_question_key : Option String
  primary_product : Option String
  policy_type_choice : Option String
  group_type_choice : Option String
  start_date : Option String
  end_date : Option String
  num_adults : Option Int
  num_children : Option Int
  num_adults_group : Option Int
  num_households : Option Int
  households_to_collect : Option Int
  households_collected : Option Int
  households_data : Option (List (Int × Int))
deriving DecidableEq

/-- The context of a fresh session (`get_default_session`). -/
def defaultCtx : Ctx :=
  { current_question_key := none
    primary_product := some "UNKNOWN"
    policy_type_choice := none
    group_type_choice := none
    start_date := none
    end_date := none
    num_adults := none
    num_children := none
    num_adults_group := none
    num_households := none
    households_to_collect := none
    households_collected := none
    households_data := none }

/-- `QUESTION_MAP` of the travel agent. -/
def questionMap (k : String) : String :=
  match k with
  | "policy_type" => "Are you looking for a **Single Trip** or an **Annual Multi-Trip** policy?"
  | "group_type_single" => "Who will be traveling? (Yourself, Family, Group of Adults, or Group of Family)"
  | "group_type_annual" => "Who will this annual plan cover? (Yourself or Family)"
  | "zone" => "Which region do you need coverage for? (**Asia** or **Worldwide**)"
  | "num_adults" => "How many adults?"
  | "num_children" => "How many children?"
  | "num_adults_group" => "How many adults are in the group?"
  | "num_households" => "How many families (households) are traveling together?"
  | "household_info" => "For family #\x7bnum\x7d, how many adults and children?"
  | "destination" => "Where are you traveling to? You can enter one or more countries separated by commas (max 10)."
  | "start_date" => "What is your travel start date (YYYY-MM-DD)?"
  | "end_date" => "And what is your travel end date (YYYY-MM-DD)?"
  | "addon_pre_ex" => "Do you need coverage for pre-existing medical conditions? (yes/no)"
  | "addon_ffm" => "Add coverage for Loss of Frequent Flyer Miles? (yes/no)"
  | "addon_flight_delay" => "Add the Flight Delay benefit? (yes/no)"
  | "coupon_code" => "Do you have a coupon code? (If not, just say \x27no\x27)"
  | "email" => "What is your email address?"
  | "contact_mobile" => "Finally, what is your 8-digit contact mobile number?"
  | _ => ""

/-- Outcome of one `process_user_answer` call of the travel agent.
`raised` models an uncaught Python exception (these all occur before
the context write-back at the end of the function); `early` models the
destination-validation returns that skip the context write-back;
`next` models reaching the final `update_conversation_context` line,
with the possibly-changed payload, the written-back context, and the
`validation_error` value. -/
inductive ProcOut where
  | raised
  | early (err : String)
  | next (payload : Option TravelPayload) (ctx : Ctx) (err : Option String)
deriving DecidableEq

/-- `process_user_answer` of the travel agent. -/
def processUserAnswer (user_message : String) (payload : Option TravelPayload)
    (ctx : Ctx) : ProcOut :=
  let last_q := ctx.current_question_key.getD ""
  let answer := pyStrip user_message
  if last_q = "policy_type" then
    if containsSub (pyLower answer) "annual" then
      .next (some getAnnualTripTemplate) { ctx with policy_type_choice := some "annual" } none
    else
      .next (some getSingleTripTemplate) { ctx with policy_type_choice := some "single" } none
  else if last_q = "group_type_single" then
    let al := pyLower answer
    let choice :=
      if containsSub al "group of families" || containsSub al "households" then "group_family"
      else if containsSub al "group of adults" then "group_adults"
      else if containsSub al "family" then "family"
      else "myself"
    .next payload { ctx with group_type_choice := some choice } none
  else if last_q = "group_type_annual" then
    let choice := if containsSub (pyLower answer) "family" then "family" else "myself"
    .next payload { ctx with group_type_choice := some choice } none
  else if last_q = "zone" then
    match payload with
    | none => .raised
    | some p =>
      let z := if containsSub (pyLower answer) "asia" then "A2" else "A3"
      .next (some { p with travel := { p.travel with zone := some z } }) ctx none
  else if last_q = "destination" then
    let entered := (pySplitComma answer).map fun c => pyLower (pyStrip c)
    if entered.length > 10 then
      .early "You can select a maximum of 10 countries. Please provide your destination(s) again."
    else
      let country_codes := entered.filterMap countryLookup
      let unknown_countries := entered.filter fun c => countryLookup c = none
      if unknown_countries ≠ [] then
        .early ("I don\x27t have information for: " ++ String.intercalate ", " unknown_countries ++
          ". Please choose from the available destinations.")
      else
        match payload with
        | none => .raised
        | some p =>
          .next (some { p with travel := { p.travel with country_code := some country_codes } }) ctx none
  else if last_q = "start_date" then
    .next payload { ctx with start_date := some (pyReplace answer "/" "-") } none
  else if last_q = "end_date" then
    .next payload { ctx with end_date := some (pyReplace answer "/" "-") } none
  else if last_q = "num_adults" then
    match pyInt answer with
    | none => .raised
    | some k => .next payload { ctx with num_adults := some k } none
  else if last_q = "num_children" then
    match pyInt answer with
    | none => .raised
    | some k =>
      let ctx1 := { ctx with num_children := some k }
      let adults := ctx1.num_adults.getD 0
      let children := ctx1.num_children.getD 0
      if ctx1.policy_type_choice = some "annual" ∧ ctx1.group_type_choice = some "family" ∧
          (adults > 2 ∨ children > 5) then
        .next payload
          { ctx1 with num_adults := none, num_children := none,
                      current_question_key := some "num_adults" }
          (some "For an Annual Family plan, the maximum is 2 adults and 5 children. Let\x27s start over with the number of travelers.")
      else
        .next payload ctx1 none
  else if last_q = "num_adults_group" then
    match pyInt answer with
    | none => .raised
    | some k => .next payload { ctx with num_adults_group := some k } none
  else if last_q = "num_households" then
    match pyInt answer with
    | none => .raised
    | some k =>
      .next payload
        { ctx with num_households := some k, households_to_collect := some k,
                   households_collected := some 0, households_data := some [] } none
  else if last_q = "household_info" then
    let parts := (pySplitComma (pyReplace answer "and" ",")).map pyStrip
    match parts with
    | p0 :: p1 :: _ =>
      match pyInt p0, pyInt p1 with
      | some adults, some children =>
        match ctx.households_data with
        | none => .raised
        | some hd =>
          .next payload
            { ctx with households_data := some (hd ++ [(adults, children)]),
                       households_collected := some (ctx.households_collected.getD 0 + 1) } none
      | _, _ => .raised
    | _ => .raised
  else if pyStartsWith last_q "addon_" then
    let is_selected := containsSub (pyLower answer) "yes"
    if last_q = "addon_pre_ex" then
      match payload with
      | none => .raised
      | some p =>
        .next (some { p with travel := { p.travel with
          selectedAddOns := { p.travel.selectedAddOns with preExAddOn := some is_selected } } }) ctx none
    else if last_q = "addon_ffm" then
      match payload with
      | none => .raised
      | some p =>
        .next (some { p with travel := { p.travel with
          selectedAddOns := { p.travel.selectedAddOns with lossFFMAddOn := some is_selected } } }) ctx none
    else if last_q = "addon_flight_delay" then
      match payload with
      | none => .raised
      | some p =>
        .next (some { p with travel := { p.travel with
          selectedAddOns := { p.travel.selectedAddOns with flightDelayAddOn := some is_selected } } }) ctx none
    else
      .next payload ctx none
  else if last_q = "coupon_code" then
    match payload with
    | none => .raised
    | some p =>
      .next (some { p with coupon_code := some (if containsSub (pyLower answer) "no" then "" else answer) }) ctx none
  else if last_q = "email" then
    match payload with
    | none => .raised
    | some p => .next (some { p with email := some answer }) ctx none
  else if last_q = "contact_mobile" then
    match payload with
    | none => .raised
    | some p => .next (some { p with contact_mobile := some answer }) ctx none
  else
    .next payload ctx none

/-- Truthiness of `payload.get('travel', \x7b\x7d).get('country_code')`:
`None` and the empty list are falsy. -/
def countryTruthy : Option (List String) → Bool
  | none => false
  | some l => !l.isEmpty

/-- `determine_next_question` of the travel agent.  The result is
`none` when the Python code would raise (payload `None` dereferenced),
`some "DONE"` on completion, and `some label` otherwise.  The order of
the checks follows the source line by line; in particular the
single-trip branch consults only the context for the four count
questions before it first touches the payload. -/
def determineNextQuestion (payload : Option TravelPayload) (ctx : Ctx) : Option String :=
  let policy_type := ctx.policy_type_choice
  let group_type := ctx.group_type_choice
  if !optStrTruthy group_type then
    some (if policy_type = some "annual" then "group_type_annual" else "group_type_single")
  else if policy_type = some "annual" then
    match payload with
    | none => none
    | some p =>
      if !optStrTruthy p.travel.zone then some "zone"
      else if group_type = some "family" ∧ ctx.num_adults = none then some "num_adults"
      else if group_type = some "family" ∧ ctx.num_children = none then some "num_children"
      else if p.travel.selectedAddOns.preExAddOn = none then some "addon_pre_ex"
      else if p.coupon_code = none then some "coupon_code"
      else if !optStrTruthy p.email then some "email"
      else if !optStrTruthy p.contact_mobile then some "contact_mobile"
      else some "DONE"
  else
    if group_type = some "family" ∧ ctx.num_adults = none then some "num_adults"
    else if group_type = some "family" ∧ ctx.num_children = none then some "num_children"
    else if group_type = some "group_adults" ∧ ctx.num_adults_group = none then some "num_adults_group"
    else if group_type = some "group_family" ∧ ctx.num_households = none then some "num_households"
    else if group_type = some "group_family" ∧
        ctx.households_collected.getD 0 < ctx.households_to_collect.getD 0 then some "household_info"
    else
      match payload with
      | none => none
      | some p =>
        if !countryTruthy p.travel.country_code then some "destination"
        else if !optStrTruthy ctx.start_date then some "start_date"
        else if !optStrTruthy ctx.end_date then some "end_date"
        else if p.travel.selectedAddOns.preExAddOn = none then some "addon_pre_ex"
        else if p.travel.selectedAddOns.lossFFMAddOn = none then some "addon_ffm"
        else if p.travel.selectedAddOns.flightDelayAddOn = none then some "addon_flight_delay"
        else if p.coupon_code = none then some "coupon_code"
        else if !optStrTruthy p.email then some "email"
        else if !optStrTruthy p.contact_mobile then some "contact_mobile"
        else some "DONE"

/-- `finalize_payload` of the travel agent.  `none` models a raised
exception: a missing `start_date`/`end_date` context key or a
`strptime` failure on the stored date strings. -/
def finalizePayload (p : TravelPayload) (ctx : Ctx) : Option TravelPayload :=
  let p1 : TravelPayload :=
    match ctx.group_type_choice with
    | some "myself" =>
      { p with travel := { p.travel with number_of_travellers :=
          { p.travel.number_of_travellers with adult := [1], child := [0], total := some 1 } } }
    | some "family" =>
      let adults := ctx.num_adults.getD 0
      let children := ctx.num_children.getD 0
      let t1 := { p.travel with number_of_travellers :=
        { p.travel.number_of_travellers with
            adult := [adults], child := [children], total := some (adults + children) } }
      let t2 := if children > 0 then { t1 with with_children := "yes" } else t1
      let t3 := if adults > 1 then { t2 with with_spouse := "yes" } else t2
      { p with travel := t3 }
    | some "group_adults" =>
      let adults := ctx.num_adults_group.getD 0
      { p with travel := { p.travel with
          number_of_travellers :=
            { p.travel.number_of_travellers with
                adult := List.replicate adults.toNat 1,
                child := List.replicate adults.toNat 0,
                total := some adults }
          with_group_of_adults := "yes" } }
    | some "group_family" =>
      let households_data := ctx.households_data.getD []
      let adults_list := households_data.map (·.1)
      let children_list := households_data.map (·.2)
      let total := adults_list.sum + children_list.sum
      { p with travel := { p.travel with
          number_of_travellers :=
            { adult := adults_list, child := children_list,
              total := some total, group := (households_data.length : Int) }
          with_group_of_households := "yes"
          households_info := some (households_data.map fun h =>
            { with_children := if h.2 > (0 : Int) then "yes" else "no"
              with_spouse := if h.1 > (1 : Int) then "yes" else "no" }) } }
    | _ => p
  if ctx.policy_type_choice = some "single" then
    match ctx.start_date, ctx.end_date with
    | some s, some e =>
      match parseDate s, parseDate e with
      | some a, some b =>
        some { p1 with travel := { p1.travel with
          number_of_days := some (max (dateDiff a b + 1) 1) } }
      | _, _ => none
    | _, _ => none
  else
    some p1

/-- The transient `_internal` sub-structure of the family payload. -/
structure FamilyInternal where
  email : Option String
  contact_mobile : Option String
  insured_party : Option String
deriving DecidableEq

/-- The family payload document; `internal` models the `_internal`
key, with `none` meaning the key has been deleted. -/
structure FamilyPayload where
  product_code : String
  policyInceptionDate : Option String
  mediaWCC : String
  IsCEPCustomer : Bool
  IsCEPFirstTimeCustomer : Bool
  hasRider : Bool
  premiumType : Option String
  promoCode : Option String
  CEPReferralCode : Option String
  withChildren : Bool
  withSpouse : Bool
  internal : Option FamilyInternal
deriving DecidableEq

/-- `get_family_payload_template`. -/
def getFamilyPayloadTemplate : FamilyPayload :=
  { product_code := "FAC"
    policyInceptionDate := none
    mediaWCC := "HLS"
    IsCEPCustomer := false
    IsCEPFirstTimeCustomer := false
    hasRider := true
    premiumType := none
    promoCode := none
    CEPReferralCode := none
    withChildren := false
    withSpouse := false
    internal := some { email := none, contact_mobile := none, insured_party := none } }

/-- `QUESTION_MAP` of the family agent. -/
def famQuestionMap (k : String) : String :=
  match k with
  | "premiumType" => "Are you looking for a **Monthly** or an **Annual** family insurance plan?"
  | "insured_party" => "Who is this plan for? (**Myself**, **Myself with Child(ren)**, or **Family**)"
  | "policyInceptionDate" => "What date would you like the plan to start? (YYYY-MM-DD)"
  | "email" => "What is your email address?"
  | "contact_mobile" => "And your 8-digit Singapore mobile number?"
  | "promoCode" => "Finally, do you have a promocode? (If not, just say \x27no\x27)"
  | _ => ""

/-- Outcome of one `process_user_answer` call of the family agent.
The family processor never changes the context, so only the payload is
carried.  `raised` models an uncaught exception (`None` payload or a
deleted `_internal` dereferenced); `err` models a returned
`validation_error` (the payload is unchanged on that path). -/
inductive FamOut where
  | raised
  | err (e : String)
  | next (payload : Option FamilyPayload)
deriving DecidableEq

/-- `process_user_answer` of the family agent, dispatching on the
current question key. -/
def famProcess (user_message : String) (payload : Option FamilyPayload)
    (last_q : String) : FamOut :=
  let answer := pyLower (pyStrip user_message)
  if last_q = "premiumType" then
    match payload with
    | none => .raised
    | some p =>
      .next (some { p with premiumType := some (if containsSub answer "annual" then "annual" else "monthly") })
  else if last_q = "insured_party" then
    match payload with
    | none => .raised
    | some p =>
      match p.internal with
      | none => .raised
      | some i =>
        let p1 := { p with internal := some { i with insured_party := some answer } }
        if containsSub answer "myself with child" then
          .next (some { p1 with withChildren := true, withSpouse := false })
        else if containsSub answer "family" then
          .next (some { p1 with withChildren := true, withSpouse := true })
        else
          .next (some { p1 with withChildren := false, withSpouse := false })
  else if last_q = "policyInceptionDate" then
    let date_str := pyReplace answer "/" "-"
    match parseDate date_str with
    | none => .err "That doesn\x27t look like a valid date format. Please use YYYY-MM-DD."
    | some _ =>
      match payload with
      | none => .raised
      | some p => .next (some { p with policyInceptionDate := some date_str })
  else if last_q = "email" then
    match payload with
    | none => .raised
    | some p =>
      match p.internal with
      | none => .raised
      | some i => .next (some { p with internal := some { i with email := some (pyStrip user_message) } })
  else if last_q = "contact_mobile" then
    match payload with
    | none => .raised
    | some p =>
      match p.internal with
      | none => .raised
      | some i => .next (some { p with internal := some { i with contact_mobile := some (pyStrip user_message) } })
  else if last_q = "promoCode" then
    match payload with
    | none => .raised
    | some p =>
      .next (some { p with promoCode := some (if answer = "no" then "" else pyStrip user_message) })
  else
    .next payload

/-- `determine_next_question` of the family agent; `none` models the
raise on a `None` payload, otherwise the first unanswered field (by
`is None` checks) or `"DONE"`. -/
def famDetermine (payload : Option FamilyPayload) : Option String :=
  match payload with
  | none => none
  | some p =>
    if p.premiumType = none then some "premiumType"
    else if (p.internal.bind (·.insured_party)) = none then some "insured_party"
    else if p.policyInceptionDate = none then some "policyInceptionDate"
    else if (p.internal.bind (·.email)) = none then some "email"
    else if (p.internal.bind (·.contact_mobile)) = none then some "contact_mobile"
    else if p.promoCode = none then some "promoCode"
    else some "DONE"

/-- `finalize_payload` of the family agent: delete `_internal`. -/
def famFinalize (p : FamilyPayload) : FamilyPayload :=
  { p with internal := none }

/-- The persisted session document, without the wall-clock
`last_active` timestamp. -/
structure Store where
  stage : String
  chat_history : List (String × String)
  travel_payload : Option TravelPayload
  family_payload : Option FamilyPayload
  ctx : Ctx
deriving DecidableEq

/-- `get_default_session`. -/
def defaultStore : Store :=
  { stage := "initial"
    chat_history := []
    travel_payload := none
    family_payload := none
    ctx := defaultCtx }

/-- Outcome of one agent invocation: a reply together with the
persisted store, or an uncaught exception with the store as persisted
at the moment of the raise. -/
inductive RunOut where
  | ok (output : String) (st : Store)
  | exn (st : Store)
deriving DecidableEq

/-- `run_travel_payload_agent` for one inbound message. -/
def runTravel (user_message : String) (st : Store) : RunOut :=
  if !optStrTruthy st.ctx.current_question_key then
    .ok (questionMap "policy_type")
      { st with ctx := { st.ctx with current_question_key := some "policy_type" } }
  else
    match processUserAnswer user_message st.travel_payload st.ctx with
    | .raised => .exn st
    | .early e => .ok e st
    | .next p c err =>
      let st1 := { st with ctx := c }
      match err with
      | some e => .ok e st1
      | none =>
        match determineNextQuestion p c with
        | none => .exn st1
        | some "DONE" =>
          match p with
          | none => .exn st1
          | some pl =>
            match finalizePayload pl c with
            | none => .exn st1
            | some fin =>
              .ok "Thank you, I have all the information. Generating your quote now..."
                { st1 with travel_payload := some fin, stage := "quote_generation",
                           ctx := { c with current_question_key := none } }
        | some k =>
          let raw := questionMap k
          let question_text :=
            if containsSub raw "#num" then
              pyReplace raw "#num" (toString (c.households_collected.getD 0 + 1))
            else raw
          .ok question_text
            { st1 with ctx := { c with current_question_key := some k },
                       travel_payload := p }

/-- `run_family_payload_agent` for one inbound message.  On first
contact (no awaiting-field marker) the question key and the fresh
template are set only locally and the triggering message falls through
into the answer processor. -/
def runFamily (user_message : String) (st : Store) : RunOut :=
  let init := !optStrTruthy st.ctx.current_question_key
  let last_q := if init then "premiumType" else st.ctx.current_question_key.getD ""
  let payload0 := if init then some getFamilyPayloadTemplate else st.family_payload
  match famProcess user_message payload0 last_q with
  | .raised => .exn st
  | .err e => .ok e st
  | .next p =>
    match famDetermine p with
    | none => .exn st
    | some "DONE" =>
      match p with
      | none => .exn st
      | some pl =>
        .ok "Thank you. Let me get the price for you..."
          { st with family_payload := some (famFinalize pl), stage := "quote_generation",
                    ctx := { st.ctx with current_question_key := none } }
    | some k =>
      .ok (famQuestionMap k)
        { st with ctx := { st.ctx with current_question_key := some k },
                  family_payload := p }

/-- The `Product` enumeration of the intent classifier. -/
inductive Product where
  | TRAVEL
  | FAMILY
  | POLICY_CLAIM_STATUS
  | UNKNOWN
deriving DecidableEq

/-- `update_session`: append the user/assistant exchange and keep the
most recent 100 history entries. -/
def pushHistory (st : Store) (user_message output : String) : Store :=
  let h := st.chat_history ++ [("user", user_message), ("assistant", output)]
  { st with chat_history := h.drop (h.length - 100) }

/-- `run_quote_generation`, with the outbound quote call abstracted as
the opaque response string `quote_resp`.  Internally fail-soft: it
never lets an exception escape. -/
def runQuote (quote_resp : String) (st : Store) : RunOut :=
  if !optStrTruthy st.ctx.primary_product then
    .ok "I\x27m sorry, I\x27ve lost track of which product we were discussing." st
  else
    let product := st.ctx.primary_product.getD ""
    let payloadPresent :=
      if product = "FAMILY" then st.family_payload.isSome else st.travel_payload.isSome
    if !payloadPresent then
      .ok "I seem to have lost your details. Let\x27s start over." st
    else
      .ok quote_resp { st with stage := "initial" }

/-- The body of `orchestrate_chat`'s `try` block: the full dispatch,
with the intent classification result and the quote response supplied
as opaque inputs.  An `exn` result is the event the top-level handler
catches. -/
def dispatch (user_message : String) (intent : Product × String) (quote_resp : String)
    (st : Store) : RunOut :=
  let low := pyLower (pyStrip user_message)
  if low = "hi" ∨ low = "hello" then
    .ok "Hello! I can help you with Travel or Family insurance. Which one are you interested in?"
      (pushHistory defaultStore user_message
        "Hello! I can help you with Travel or Family insurance. Which one are you interested in?")
  else
    let res :=
      if st.stage = "" ∨ st.stage = "initial" then
        if intent.2 = "greeting" then
          .ok "Hello! I can help you with Travel or Family insurance. Which one are you interested in?" st
        else
          match intent.1 with
          | .TRAVEL =>
            runTravel user_message
              { st with stage := "travel_collection",
                        ctx := { st.ctx with primary_product := some "TRAVEL" } }
          | .FAMILY =>
            runFamily user_message
              { st with stage := "family_collection",
                        ctx := { st.ctx with primary_product := some "FAMILY" } }
          | _ =>
            .ok "I can help with Travel or Family insurance. Which product are you interested in?" st
      else if st.stage = "travel_collection" then runTravel user_message st
      else if st.stage = "family_collection" then runFamily user_message st
      else if st.stage = "quote_generation" then runQuote quote_resp st
      else
        .ok "I\x27m not sure how to help with that. Please start by telling me if you need Travel or Family insurance." st
    match res with
    | .exn s => .exn s
    | .ok out s => .ok out (pushHistory s user_message out)

/-- `orchestrate_chat`: the dispatch wrapped in the top-level
exception handler that converts any raise into the generic apology. -/
def orchestrateChat (user_message : String) (intent : Product × String)
    (quote_resp : String) (st : Store) : String × Store :=
  match dispatch user_message intent quote_resp st with
  | .ok out s => (out, s)
  | .exn s => ("I\x27m sorry, a critical error occurred. Please start over by saying \x27hi\x27.", s)

/-- Transcript of a sequence of travel-agent turns: the list of agent
replies and the final store, or `none` if some turn raised. -/
def travelTranscript (st : Store) : List String → Option (List String × Store)
  | [] => some ([], st)
  | m :: ms =>
    match runTravel m st with
    | .exn _ => none
    | .ok out st1 => (travelTranscript st1 ms).map fun r => (out :: r.1, r.2)

/-- Transcript of a sequence of family-agent turns. -/
def famTranscript (st : Store) : List String → Option (List String × Store)
  | [] => some ([], st)
  | m :: ms =>
    match runFamily m st with
    | .exn _ => none
    | .ok out st1 => (famTranscript st1 ms).map fun r => (out :: r.1, r.2)

/-- Spec-side definition (used for refinement only): the inclusive day
count between two dates, floored at 1. -/
def specInclusiveDaysFloored (a b : Nat × Nat × Nat) : Int :=
  max (dateDiff a b + 1) 1

/-- The destination tokens of an answer: comma-split, trimmed,
lowercased. -/
def destTokens (user_message : String) : List String :=
  (pySplitComma (pyStrip user_message)).map fun c => pyLower (pyStrip c)

/-- The destination tokens of an answer absent from the country
table. -/
def destUnknown (user_message : String) : List String :=
  (destTokens user_message).filter fun c => countryLookup c = none

/-- The country codes of the recognized destination tokens, in answer
order. -/
def destCodes (user_message : String) : List String :=
  (destTokens user_message).filterMap countryLookup

/-- Whether the stored travel payload has a truthy contact mobile. -/
def mobileTruthy : Option TravelPayload → Bool
  | none => false
  | some p => optStrTruthy p.contact_mobile

/-- The travel question labels whose answer handler writes into the
conversation context (rather than only into the payload). -/
def ctxModLabels : List String :=
  ["group_type_single", "group_type_annual", "start_date", "end_date",
   "num_adults", "num_children", "num_adults_group", "num_households", "household_info"]

/-- Reachability invariant of persisted sessions, used by the
fail-soft claim: an uninitiated session has no awaiting-field marker;
a travel session past the first question has a stored payload; and
while a context-writing travel question is pending, the
contact-mobile field (the final field of every travel branch) is still
unanswered. -/
def SessionInv (st : Store) : Prop :=
  ((st.stage = "initial" ∨ st.stage = "") → optStrTruthy st.ctx.current_question_key = false) ∧
  (st.stage = "travel_collection" → optStrTruthy st.ctx.current_question_key = true →
    st.ctx.current_question_key ≠ some "policy_type" → st.travel_payload.isSome = true) ∧
  (st.stage = "travel_collection" → ∀ L ∈ ctxModLabels, st.ctx.current_question_key = some L →
    mobileTruthy st.travel_payload = false)

instance (st : Store) : Decidable (SessionInv st) := by
  unfold SessionInv
  infer_instance

/-- Truthiness of the zone slot of a stored payload. -/
def zoneTruthy : Option TravelPayload → Bool
  | none => false
  | some p => optStrTruthy p.travel.zone

/-- Truthiness of the country-code slot of a stored payload. -/
def payloadCountryTruthy : Option TravelPayload → Bool
  | none => false
  | some p => countryTruthy p.travel.country_code

/-- Whether a stored payload already has the given add-on key
(selected or not). -/
def addonPresent (which : Nat) : Option TravelPayload → Bool
  | none => false
  | some p =>
    match which with
    | 0 => p.travel.selectedAddOns.preExAddOn.isSome
    | 1 => p.travel.selectedAddOns.lossFFMAddOn.isSome
    | _ => p.travel.selectedAddOns.flightDelayAddOn.isSome

/-- Whether a stored payload has a coupon-code value other than the
unset sentinel. -/
def couponPresent : Option TravelPayload → Bool
  | none => false
  | some p => p.coupon_code.isSome

/-- Truthiness of the email slot of a stored payload. -/
def emailTruthy : Option TravelPayload → Bool
  | none => false
  | some p => optStrTruthy p.email

/-- The per-label unanswered predicate of the travel schema: `true`
exactly when the field the label asks for is still unfilled in the
record/context. -/
def travelGuard (label : String) (payload : Option TravelPayload) (ctx : Ctx) : Bool :=
  match label with
  | "group_type_single" => !optStrTruthy ctx.group_type_choice
  | "group_type_annual" => !optStrTruthy ctx.group_type_choice
  | "zone" => !zoneTruthy payload
  | "num_adults" => ctx.num_adults = none
  | "num_children" => ctx.num_children = none
  | "num_adults_group" => ctx.num_adults_group = none
  | "num_households" => ctx.num_households = none
  | "household_info" => ctx.households_collected.getD 0 < ctx.households_to_collect.getD 0
  | "destination" => !payloadCountryTruthy payload
  | "start_date" => !optStrTruthy ctx.start_date
  | "end_date" => !optStrTruthy ctx.end_date
  | "addon_pre_ex" => !addonPresent 0 payload
  | "addon_ffm" => !addonPresent 1 payload
  | "addon_flight_delay" => !addonPresent 2 payload
  | "coupon_code" => !couponPresent payload
  | "email" => !emailTruthy payload
  | "contact_mobile" => !mobileTruthy payload
  | _ => false

/-- The per-label unanswered predicate of the family schema. -/
def famGuard (label : String) (payload : Option FamilyPayload) : Bool :=
  match payload with
  | none => false
  | some p =>
    match label with
    | "premiumType" => p.premiumType = none
    | "insured_party" => (p.internal.bind (·.insured_party)) = none
    | "policyInceptionDate" => p.policyInceptionDate = none
    | "email" => (p.internal.bind (·.email)) = none
    | "contact_mobile" => (p.internal.bind (·.contact_mobile)) = none
    | "promoCode" => p.promoCode = none
    | _ => false

/-- The `CEPReferralCode` leaf of a stored family payload is still the
unset sentinel. -/
def cepUnset : Option FamilyPayload → Bool
  | none => true
  | some p => p.CEPReferralCode = none

/-- The completion acknowledgement of the travel agent. -/
def travelDoneMsg : String :=
  "Thank you, I have all the information. Generating your quote now..."

/-- The completion acknowledgement of the family agent. -/
def famDoneMsg : String :=
  "Thank you. Let me get the price for you..."

/-- The top-level apology of the orchestrator. -/
def apologyMsg : String :=
  "I\x27m sorry, a critical error occurred. Please start over by saying \x27hi\x27."

/-- The annual-family over-limit message. -/
def overLimitMsg : String :=
  "For an Annual Family plan, the maximum is 2 adults and 5 children. Let\x27s start over with the number of travelers."

/-- The too-many-destinations re-prompt. -/
def maxCountriesMsg : String :=
  "You can select a maximum of 10 countries. Please provide your destination(s) again."

/-- The unrecognized-destinations message for a list of unknown
names. -/
def unknownCountriesMsg (unknown : List String) : String :=
  "I don\x27t have information for: " ++ String.intercalate ", " unknown ++
    ". Please choose from the available destinations."

/-- The family date-format validation message. -/
def famDateErrMsg : String :=
  "That doesn\x27t look like a valid date format. Please use YYYY-MM-DD."

/-- A travel record state just after the third add-on answer of a
single-trip/myself conversation: all add-ons answered, coupon code
still the template's empty string, email and mobile unanswered. -/
def preCouponPayload : TravelPayload :=
  { getSingleTripTemplate with
      travel := { getSingleTripTemplate.travel with
        country_code := some ["JPN"]
        selectedAddOns := ⟨some true, some false, some false⟩ } }

/-- The matching context for `preCouponPayload`. -/
def preCouponCtx : Ctx :=
  { defaultCtx with
      current_question_key := some "addon_flight_delay"
      policy_type_choice := some "single"
      group_type_choice := some "myself"
      start_date := some "2025-03-01"
      end_date := some "2025-03-05" }

/-- A travel session awaiting the adult-count answer, used to witness
the fail-soft behavior on a malformed integer. -/
def stNumAdults : Store :=
  { defaultStore with
      stage := "travel_collection"
      ctx := { defaultCtx with current_question_key := some "num_adults" }
      travel_payload := some getSingleTripTemplate }

instance : Nonempty Store := ⟨defaultStore⟩

/-- Mid-conversation state of a single-trip group-of-households
conversation: `n` households declared, `c` collected so far with pair
list `data`, awaiting the next household answer. -/
def gfLoopStore (n c : Int) (data : List (Int × Int)) : Store :=
  { defaultStore with
      travel_payload := some getSingleTripTemplate
      ctx := { defaultCtx with
        current_question_key := some "household_info"
        policy_type_choice := some "single"
        group_type_choice := some "group_family"
        num_households := some n
        households_to_collect := some n
        households_collected := some c
        households_data := some data } }

/-- State of the same conversation once every declared household has
been collected, awaiting the destination answer. -/
def gfDestStore (n c : Int) (data : List (Int × Int)) : Store :=
  { defaultStore with
      travel_payload := some getSingleTripTemplate
      ctx := { defaultCtx with
        current_question_key := some "destination"
        policy_type_choice := some "single"
        group_type_choice := some "group_family"
        num_households := some n
        households_to_collect := some n
        households_collected := some c
        households_data := some data } }

/-! From here on: the theorems. -/

theorem optStrTruthy_A2A3 (c : Prop) [Decidable c] :
    optStrTruthy (some (if c then "A2" else "A3")) = true := by
  split <;> rfl

theorem isEmpty_A2A3 (c : Prop) [Decidable c] :
    (if c then "A2" else "A3" : String).isEmpty = false := by
  split <;> rfl

theorem labelNonEmpty :
    ("policy_type" : String).isEmpty = false ∧ ("group_type_single" : String).isEmpty = false ∧
    ("group_type_annual" : String).isEmpty = false ∧ ("zone" : String).isEmpty = false ∧
    ("destination" : String).isEmpty = false ∧ ("start_date" : String).isEmpty = false ∧
    ("end_date" : String).isEmpty = false ∧ ("num_adults" : String).isEmpty = false ∧
    ("num_children" : String).isEmpty = false ∧ ("num_adults_group" : String).isEmpty = false ∧
    ("num_households" : String).isEmpty = false ∧ ("household_info" : String).isEmpty = false ∧
    ("addon_pre_ex" : String).isEmpty = false ∧ ("addon_ffm" : String).isEmpty = false ∧
    ("addon_flight_delay" : String).isEmpty = false ∧ ("coupon_code" : String).isEmpty = false ∧
    ("email" : String).isEmpty = false ∧ ("contact_mobile" : String).isEmpty = false ∧
    ("myself" : String).isEmpty = false ∧ ("family" : String).isEmpty = false ∧
    ("group_adults" : String).isEmpty = false ∧ ("group_family" : String).isEmpty = false ∧
    ("annual" : String).isEmpty = false ∧ ("single" : String).isEmpty = false ∧
    ("A2" : String).isEmpty = false ∧ ("A3" : String).isEmpty = false := by
  decide

theorem famLabelNonEmpty :
    ("premiumType" : String).isEmpty = false ∧ ("insured_party" : String).isEmpty = false ∧
    ("policyInceptionDate" : String).isEmpty = false ∧ ("promoCode" : String).isEmpty = false := by
  decide

theorem questionNoNum :
    containsSub (questionMap "policy_type") "#num" = false ∧
    containsSub (questionMap "group_type_single") "#num" = false ∧
    containsSub (questionMap "group_type_annual") "#num" = false ∧
    containsSub (questionMap "zone") "#num" = false ∧
    containsSub (questionMap "destination") "#num" = false ∧
    containsSub (questionMap "start_date") "#num" = false ∧
    containsSub (questionMap "end_date") "#num" = false ∧
    containsSub (questionMap "num_adults") "#num" = false ∧
    containsSub (questionMap "num_children") "#num" = false ∧
    containsSub (questionMap "num_adults_group") "#num" = false ∧
    containsSub (questionMap "num_households") "#num" = false ∧
    containsSub (questionMap "household_info") "#num" = false ∧
    containsSub (questionMap "addon_pre_ex") "#num" = false ∧
    containsSub (questionMap "addon_ffm") "#num" = false ∧
    containsSub (questionMap "addon_flight_delay") "#num" = false ∧
    containsSub (questionMap "coupon_code") "#num" = false ∧
    containsSub (questionMap "email") "#num" = false ∧
    containsSub (questionMap "contact_mobile") "#num" = false := by
  decide

theorem startsWithAddonFacts :
    pyStartsWith "addon_pre_ex" "addon_" = true ∧
    pyStartsWith "addon_ffm" "addon_" = true ∧
    pyStartsWith "addon_flight_delay" "addon_" = true ∧
    pyStartsWith "coupon_code" "addon_" = false ∧
    pyStartsWith "email" "addon_" = false ∧
    pyStartsWith "contact_mobile" "addon_" = false := by
  decide

theorem splitChar_ne_nil (sep : Char) (l : List Char) : splitChar sep l ≠ [] := by
  induction l with
  | nil => simp [splitChar]
  | cons c rest ih =>
    simp only [splitChar]
    split
    · simp
    · cases hr : splitChar sep rest with
      | nil => exact absurd hr ih
      | cons h t => simp [hr]

theorem pySplitComma_ne_nil (s : String) : pySplitComma s ≠ [] := by
  unfold pySplitComma
  intro h
  exact splitChar_ne_nil ',' s.toList (by simpa using h)

/-- If every destination token is recognized, the committed code list
is nonempty. -/
theorem destCodes_nonEmpty (s : String)
    (hall : ∀ x ∈ pySplitComma (pyStrip s), ¬ countryLookup (pyLower (pyStrip x)) = none) :
    (List.filterMap (countryLookup ∘ fun c => pyLower (pyStrip c))
      (pySplitComma (pyStrip s))).isEmpty = false := by
  cases hsp : pySplitComma (pyStrip s) with
  | nil => exact absurd hsp (pySplitComma_ne_nil _)
  | cons hd tl =>
    have hh := hall hd (by rw [hsp]; exact List.mem_cons_self hd tl)
    cases hc : countryLookup (pyLower (pyStrip hd)) with
    | none => exact absurd hc hh
    | some code => simp [List.filterMap_cons, Function.comp, hc]

/-- A string accepted by the date parser is nonempty. -/
theorem parseDate_ne_empty (s : String) (d : Nat × Nat × Nat)
    (h : parseDate s = some d) : s.isEmpty = false := by
  by_contra hne
  have hs : s = "" := (String.isEmpty_iff s).1 (by simpa using hne)
  rw [hs] at h
  rw [show parseDate "" = none from rfl] at h
  cases h

/-- The `strptime` boundary behavior, pinned at the corner inputs:
`%Y` takes exactly four digits (shorter years are rejected, leading
zeros accepted, year 0 rejected at construction), `%d` accepts a
space-padded single-digit day, and out-of-range months, days and
non-calendar dates are rejected. -/
theorem parseDate_corners :
    parseDate "999-03-01" = none ∧
    parseDate "25-03-01" = none ∧
    parseDate "0999-03-01" = some (999, 3, 1) ∧
    parseDate "0000-01-01" = none ∧
    parseDate "2025-03- 5" = some (2025, 3, 5) ∧
    parseDate "2025-3-5" = some (2025, 3, 5) ∧
    parseDate "2025-13-40" = none ∧
    parseDate "2025-03-32" = none ∧
    parseDate "2025-02-29" = none ∧
    parseDate "2024-02-29" = some (2024, 2, 29) ∧
    parseDate "2025-03- 0" = none ∧
    parseDate "2025- 3-05" = none ∧
    parseDate "2025-03-05 " = none ∧
    parseDate "2025-03-005" = none :=
  ⟨by decide, by decide, by decide, by decide, by decide, by decide, by decide,
   by decide, by decide, by decide, by decide, by decide, by decide, by decide⟩

/-- Transcripts split across list concatenation. -/
theorem travelTranscript_append (st : Store) (l1 l2 : List String) :
    travelTranscript st (l1 ++ l2) = (travelTranscript st l1).bind fun r =>
      (travelTranscript r.2 l2).map fun q => (r.1 ++ q.1, q.2) := by
  induction l1 generalizing st with
  | nil =>
    simp [travelTranscript]
  | cons m ms ih =>
    simp only [List.cons_append, travelTranscript]
    cases runTravel m st with
    | exn s => rfl
    | ok out st1 =>
      dsimp only
      rw [List.append_eq, ih st1]
      cases h1 : travelTranscript st1 ms with
      | none => rfl
      | some r =>
        cases h2 : travelTranscript r.2 l2 with
        | none => simp [h2, Function.comp]
        | some q => simp [h2, Function.comp]

/-- C1: for every single-trip travel conversation whose start and end
dates parse as `YYYY-MM-DD` dates, finalization sets `number_of_days`
to the inclusive day count between start and end date, floored at 1;
start `2025-03-01` with end `2025-03-05` yields 5, and equal start and
end dates yield 1. -/
theorem claim_C1 :
    (∀ (p : TravelPayload) (ctx : Ctx) (s e : String) (a b : Nat × Nat × Nat),
      ctx.policy_type_choice = some "single" →
      ctx.start_date = some s → ctx.end_date = some e →
      parseDate s = some a → parseDate e = some b →
      ∃ fin, finalizePayload p ctx = some fin ∧
        fin.travel.number_of_days = some (specInclusiveDaysFloored a b)) ∧
    parseDate "2025-03-01" = some (2025, 3, 1) ∧
    parseDate "2025-03-05" = some (2025, 3, 5) ∧
    specInclusiveDaysFloored (2025, 3, 1) (2025, 3, 5) = 5 ∧
    (∀ a, specInclusiveDaysFloored a a = 1) := by
  refine ⟨?_, by decide, by decide, by decide, ?_⟩
  · intro p ctx s e a b h1 h2 h3 h4 h5
    simp only [finalizePayload, h1, h2, h3, h4, h5, specInclusiveDaysFloored]
    exact ⟨_, rfl, rfl⟩
  · intro a
    simp only [specInclusiveDaysFloored, dateDiff, sub_self, zero_add]
    exact max_self 1

/-- Witness for C1: the concrete single-trip finalization at start
`2025-03-01`, end `2025-03-05` produces `number_of_days = 5`. -/
theorem claim_C1_witness :
    ∃ fin, finalizePayload getSingleTripTemplate
        { defaultCtx with policy_type_choice := some "single"
                          group_type_choice := some "myself"
                          start_date := some "2025-03-01"
                          end_date := some "2025-03-05" } = some fin ∧
      fin.travel.number_of_days = some 5 := by
  obtain ⟨fin, hf, hd⟩ := claim_C1.1 getSingleTripTemplate
    { defaultCtx with policy_type_choice := some "single"
                      group_type_choice := some "myself"
                      start_date := some "2025-03-01"
                      end_date := some "2025-03-05" }
    "2025-03-01" "2025-03-05" (2025, 3, 1) (2025, 3, 5) rfl rfl rfl (by decide) (by decide)
  exact ⟨fin, hf, by rw [hd]; decide⟩

/-- C10: invoking the travel agent with no awaiting-field marker
returns the policy-type question and discards the triggering message:
no record or context slot changes except that the marker becomes
`policy_type`. -/
theorem claim_C10 :
    ∀ (user_message : String) (st : Store),
      optStrTruthy st.ctx.current_question_key = false →
      runTravel user_message st =
        .ok (questionMap "policy_type")
          { st with ctx := { st.ctx with current_question_key := some "policy_type" } } := by
  intro user_message st h
  simp [runTravel, h]

/-- Witness for C10: a fresh session's first travel turn. -/
theorem claim_C10_witness :
    runTravel "I need travel insurance please" defaultStore =
      .ok (questionMap "policy_type")
        { defaultStore with ctx := { defaultCtx with current_question_key := some "policy_type" } } :=
  claim_C10 "I need travel insurance please" defaultStore rfl

/-- C7: in an annual-policy family-branch travel conversation, a
children-count answer that leaves more than 2 adults or more than 5
children returns the explanatory over-limit message, removes both
counts from the context, and moves the awaiting-field marker back to
the adult-count question. -/
theorem claim_C7 :
    ∀ (user_message : String) (st : Store) (k : Int),
      st.ctx.current_question_key = some "num_children" →
      pyInt (pyStrip user_message) = some k →
      st.ctx.policy_type_choice = some "annual" →
      st.ctx.group_type_choice = some "family" →
      (st.ctx.num_adults.getD 0 > 2 ∨ k > 5) →
      runTravel user_message st =
        .ok overLimitMsg
          { st with ctx := { st.ctx with num_adults := none
                                         num_children := none
                                         current_question_key := some "num_adults" } } := by
  intro user_message st k h1 h2 h3 h4 h5
  have hm : optStrTruthy (some "num_children") = true := rfl
  simp [runTravel, processUserAnswer, hm, h1, h2, h3, h4, h5, overLimitMsg]

/-- Witness for C7: three adults and one child on an annual family
plan trigger the reset. -/
theorem claim_C7_witness :
    runTravel "1"
        { defaultStore with ctx :=
          { defaultCtx with current_question_key := some "num_children"
                            policy_type_choice := some "annual"
                            group_type_choice := some "family"
                            num_adults := some 3 } } =
      .ok overLimitMsg
        { defaultStore with ctx :=
          { defaultCtx with current_question_key := some "num_adults"
                            policy_type_choice := some "annual"
                            group_type_choice := some "family"
                            num_adults := none
                            num_children := none } } :=
  claim_C7 "1" _ 1 rfl (by decide) rfl rfl (Or.inl (by decide))

/-- C2: a destination answer with more than 10 comma-separated tokens
is rejected with the re-prompt; an answer with any unrecognized token
is rejected with a message listing exactly the unrecognized names and
commits nothing (the persisted store is unchanged); an answer whose
tokens are all recognized commits all the corresponding codes. -/
theorem claim_C2 :
    (∀ (user_message : String) (st : Store),
      st.ctx.current_question_key = some "destination" →
      (destTokens user_message).length > 10 →
      runTravel user_message st = .ok maxCountriesMsg st) ∧
    (∀ (user_message : String) (st : Store),
      st.ctx.current_question_key = some "destination" →
      ¬ (destTokens user_message).length > 10 →
      destUnknown user_message ≠ [] →
      runTravel user_message st = .ok (unknownCountriesMsg (destUnknown user_message)) st) ∧
    (∀ (user_message : String) (p : TravelPayload) (ctx : Ctx),
      ctx.current_question_key = some "destination" →
      ¬ (destTokens user_message).length > 10 →
      destUnknown user_message = [] →
      processUserAnswer user_message (some p) ctx =
        .next (some { p with travel := { p.travel with country_code := some (destCodes user_message) } })
          ctx none) := by
  refine ⟨?_, ?_, ?_⟩
  · intro user_message st h1 h2
    have hm : optStrTruthy (some "destination") = true := rfl
    have h2' : 10 < (pySplitComma (pyStrip user_message)).length := by
      simpa [destTokens] using h2
    simp [runTravel, processUserAnswer, hm, h1, h2', maxCountriesMsg]
  · intro user_message st h1 h2 h3
    have hm : optStrTruthy (some "destination") = true := rfl
    have h2' : ¬ 10 < (pySplitComma (pyStrip user_message)).length := by
      simpa [destTokens] using h2
    have h3' : ∃ x ∈ pySplitComma (pyStrip user_message),
        countryLookup (pyLower (pyStrip x)) = none := by
      simpa [destUnknown, destTokens] using h3
    simp [runTravel, processUserAnswer, hm, h1, h2', h3', unknownCountriesMsg, destUnknown,
      destTokens]
  · intro user_message p ctx h1 h2 h3
    have h2' : ¬ 10 < (pySplitComma (pyStrip user_message)).length := by
      simpa [destTokens] using h2
    have h3' : ∀ x ∈ pySplitComma (pyStrip user_message),
        ¬ countryLookup (pyLower (pyStrip x)) = none := by
      simpa [destUnknown, destTokens] using h3
    simp [processUserAnswer, h1, h2', destCodes, destTokens]
    exact h3'

/-- Witness for C2: eleven tokens are rejected with the re-prompt;
`"Japan, Atlantis, France"` is rejected naming only `atlantis` and
changes nothing; `"Japan, France"` commits `[JPN, FRA]`. -/
theorem claim_C2_witness :
    (runTravel "a,b,c,d,e,f,g,h,i,j,k"
        { defaultStore with
            ctx := { defaultCtx with current_question_key := some "destination" }
            travel_payload := some getSingleTripTemplate } =
      .ok maxCountriesMsg
        { defaultStore with
            ctx := { defaultCtx with current_question_key := some "destination" }
            travel_payload := some getSingleTripTemplate }) ∧
    (runTravel "Japan, Atlantis, France"
        { defaultStore with
            ctx := { defaultCtx with current_question_key := some "destination" }
            travel_payload := some getSingleTripTemplate } =
      .ok (unknownCountriesMsg (destUnknown "Japan, Atlantis, France"))
        { defaultStore with
            ctx := { defaultCtx with current_question_key := some "destination" }
            travel_payload := some getSingleTripTemplate }) ∧
    destUnknown "Japan, Atlantis, France" = ["atlantis"] ∧
    (processUserAnswer "Japan, France" (some getSingleTripTemplate)
        { defaultCtx with current_question_key := some "destination" } =
      .next (some { getSingleTripTemplate with
          travel := { getSingleTripTemplate.travel with
            country_code := some (destCodes "Japan, France") } })
        { defaultCtx with current_question_key := some "destination" } none) ∧
    destCodes "Japan, France" = ["JPN", "FRA"] :=
  ⟨claim_C2.1 "a,b,c,d,e,f,g,h,i,j,k" _ rfl (by decide),
   claim_C2.2.1 "Japan, Atlantis, France" _ rfl (by decide) (by decide),
   by decide,
   claim_C2.2.2 "Japan, France" getSingleTripTemplate _ rfl (by decide) (by decide),
   by decide⟩

/-- C4 counterexample: a travel start-date answer that does not parse
as `YYYY-MM-DD` is nevertheless accepted: the Answer Processor returns
no validation error and stores the raw (normalized) string, so the
field does not remain unanswered as the claim requires. -/
theorem claim_C4_counterexample :
    processUserAnswer "not-a-date" (some getSingleTripTemplate)
        { defaultCtx with current_question_key := some "start_date" } =
      .next (some getSingleTripTemplate)
        { defaultCtx with current_question_key := some "start_date"
                          start_date := some "not-a-date" } none ∧
    parseDate "not-a-date" = none := by
  constructor
  · decide
  · decide

/-- C4 amended: only the family inception date is validated at answer
time: on parse failure (after `/` to `-` normalization) the family
processor returns the date-format error and leaves the whole store —
including the awaiting-field marker — unchanged, and on success it
stores the normalized string; the travel start and end dates are
stored after normalization only, with no parse check. -/
theorem claim_C4 :
    (∀ (user_message : String) (st : Store),
      st.ctx.current_question_key = some "policyInceptionDate" →
      parseDate (pyReplace (pyLower (pyStrip user_message)) "/" "-") = none →
      runFamily user_message st = .ok famDateErrMsg st) ∧
    (∀ (user_message : String) (p : FamilyPayload) (d : Nat × Nat × Nat),
      parseDate (pyReplace (pyLower (pyStrip user_message)) "/" "-") = some d →
      famProcess user_message (some p) "policyInceptionDate" =
        .next (some { p with
          policyInceptionDate := some (pyReplace (pyLower (pyStrip user_message)) "/" "-") })) ∧
    (∀ (user_message : String) (payload : Option TravelPayload) (ctx : Ctx),
      ctx.current_question_key = some "start_date" →
      processUserAnswer user_message payload ctx =
        .next payload { ctx with start_date := some (pyReplace (pyStrip user_message) "/" "-") } none) ∧
    (∀ (user_message : String) (payload : Option TravelPayload) (ctx : Ctx),
      ctx.current_question_key = some "end_date" →
      processUserAnswer user_message payload ctx =
        .next payload { ctx with end_date := some (pyReplace (pyStrip user_message) "/" "-") } none) := by
  refine ⟨?_, ?_, ?_, ?_⟩
  · intro user_message st h1 h2
    have hm : optStrTruthy (some "policyInceptionDate") = true := rfl
    simp [runFamily, famProcess, hm, h1, h2, famDateErrMsg]
  · intro user_message p d h
    simp [famProcess, h]
  · intro user_message payload ctx h
    simp [processUserAnswer, h]
  · intro user_message payload ctx h
    simp [processUserAnswer, h]

/-- Witness for C4: the family agent rejects `2025-13-40` and leaves
the store unchanged, accepts `2025/03/05` as `2025-03-05`, and the
travel agent stores `not-a-date` without complaint. -/
theorem claim_C4_witness :
    (runFamily "2025-13-40"
        { defaultStore with
            ctx := { defaultCtx with current_question_key := some "policyInceptionDate" }
            family_payload := some getFamilyPayloadTemplate } =
      .ok famDateErrMsg
        { defaultStore with
            ctx := { defaultCtx with current_question_key := some "policyInceptionDate" }
            family_payload := some getFamilyPayloadTemplate }) ∧
    (famProcess "2025/03/05" (some getFamilyPayloadTemplate) "policyInceptionDate" =
      .next (some { getFamilyPayloadTemplate with policyInceptionDate := some "2025-03-05" })) ∧
    (processUserAnswer "not-a-date" none
        { defaultCtx with current_question_key := some "end_date" } =
      .next none { defaultCtx with current_question_key := some "end_date"
                                   end_date := some "not-a-date" } none) := by
  refine ⟨claim_C4.1 "2025-13-40" _ rfl (by decide), ?_, ?_⟩
  · have h := claim_C4.2.1 "2025/03/05" getFamilyPayloadTemplate (2025, 3, 5) (by decide)
    rwa [show pyReplace (pyLower (pyStrip "2025/03/05")) "/" "-" = "2025-03-05" by decide] at h
  · have h := claim_C4.2.2.2 "not-a-date" none
      { defaultCtx with current_question_key := some "end_date" } rfl
    rwa [show pyReplace (pyStrip "not-a-date") "/" "-" = "not-a-date" by decide] at h

/-- C5: the coupon-code question is never asked in a travel
conversation.  A complete single-trip conversation goes from the third
add-on straight to the email question, and in the ready state after
the add-ons the resolver returns `email` because the template
pre-fills `coupon_code` with `""` while the resolver only asks when it
is `None`. -/
theorem claim_C5 :
    (travelTranscript { defaultStore with stage := "travel_collection" }
        ["travel", "single", "myself", "Japan", "2025-03-01", "2025-03-05",
         "yes", "no", "no", "a@b.c", "12345678"]).map (fun r => (r.1, r.2.stage)) =
      some ([questionMap "policy_type", questionMap "group_type_single", questionMap "destination",
             questionMap "start_date", questionMap "end_date", questionMap "addon_pre_ex",
             questionMap "addon_ffm", questionMap "addon_flight_delay", questionMap "email",
             questionMap "contact_mobile", travelDoneMsg], "quote_generation") ∧
    questionMap "coupon_code" ∉
      [questionMap "policy_type", questionMap "group_type_single", questionMap "destination",
       questionMap "start_date", questionMap "end_date", questionMap "addon_pre_ex",
       questionMap "addon_ffm", questionMap "addon_flight_delay", questionMap "email",
       questionMap "contact_mobile", travelDoneMsg] ∧
    determineNextQuestion (some preCouponPayload)
      { preCouponCtx with current_question_key := some "addon_flight_delay" } = some "email" ∧
    preCouponPayload.coupon_code = some "" := by
  refine ⟨by decide, by decide, by decide, by decide⟩

/-- C6: the family agent consumes the conversation-triggering message
itself as the premium-frequency answer: on first contact it returns
the insured-party question, the premium-frequency question text is
never shown, and `premiumType` is already set to `monthly` from the
trigger message. -/
theorem claim_C6 :
    runFamily "i want family insurance" defaultStore =
      .ok (famQuestionMap "insured_party")
        { defaultStore with
            ctx := { defaultCtx with current_question_key := some "insured_party" }
            family_payload := some { getFamilyPayloadTemplate with premiumType := some "monthly" } } ∧
    (famTranscript defaultStore
        ["i want family insurance", "myself", "2025-01-01", "a@b.c", "12345678", "no"]).map
        (fun r => (r.1, r.2.stage)) =
      some ([famQuestionMap "insured_party", famQuestionMap "policyInceptionDate",
             famQuestionMap "email", famQuestionMap "contact_mobile", famQuestionMap "promoCode",
             famDoneMsg], "quote_generation") ∧
    famQuestionMap "premiumType" ∉
      [famQuestionMap "insured_party", famQuestionMap "policyInceptionDate",
       famQuestionMap "email", famQuestionMap "contact_mobile", famQuestionMap "promoCode",
       famDoneMsg] := by
  refine ⟨by decide, by decide, by decide⟩

/-- C8 counterexample: a completed family conversation reaches the
quote stage with a finalized payload whose `CEPReferralCode` leaf is
still the unset sentinel `None`, contradicting the no-unset-sentinel
guarantee. -/
theorem claim_C8_counterexample :
    (famTranscript defaultStore
        ["family please", "myself", "2025-01-01", "a@b.c", "12345678", "no"]).map
        (fun r => (r.2.stage, r.2.family_payload.map fun p => p.CEPReferralCode)) =
      some ("quote_generation", some none) := by
  decide

/-- Family answer processing preserves an unset `CEPReferralCode`. -/
theorem famProcess_cep (user_message : String) (payload : Option FamilyPayload) (q : String)
    (h : cepUnset payload = true) :
    ∀ res, famProcess user_message payload q = .next res → cepUnset res = true := by
  intro res hres
  unfold famProcess at hres
  split_ifs at hres <;>
    (repeat' split at hres) <;>
    (try cases hres) <;>
    (try simp_all [cepUnset]) <;>
    (repeat' split at hres) <;>
    (try cases hres) <;>
    simp_all [cepUnset]

/-- Travel finalization never writes the `zone` leaf. -/
theorem finalize_zone (p : TravelPayload) (ctx : Ctx) :
    ∀ fin, finalizePayload p ctx = some fin → fin.travel.zone = p.travel.zone := by
  intro fin hfin
  unfold finalizePayload at hfin
  split_ifs at hfin <;>
    (repeat' split at hfin) <;>
    (try cases hfin) <;>
    dsimp only <;>
    (first | rfl | (split_ifs <;> rfl))

/-- C8 amended: finalization strips the family `_internal`
sub-structure, but unset sentinels can survive to the finalized
payload: no family turn ever writes `CEPReferralCode` (it stays the
unset sentinel from the template through every processed answer and
through finalization), and travel finalization leaves the `zone` leaf
exactly as it was (in particular `None` for single-trip conversations,
which never ask the zone question). -/
theorem claim_C8 :
    (∀ p : FamilyPayload, (famFinalize p).internal = none) ∧
    cepUnset defaultStore.family_payload = true ∧
    (∀ (user_message : String) (st : Store) (out : String) (st1 : Store),
      cepUnset st.family_payload = true →
      runFamily user_message st = .ok out st1 →
      cepUnset st1.family_payload = true) ∧
    (∀ (p : TravelPayload) (ctx : Ctx) (fin : TravelPayload),
      finalizePayload p ctx = some fin → fin.travel.zone = p.travel.zone) := by
  refine ⟨fun p => rfl, rfl, ?_, fun p ctx fin h => finalize_zone p ctx fin h⟩
  intro user_message st out st1 h hrun
  unfold runFamily at hrun
  by_cases hinit : optStrTruthy st.ctx.current_question_key = true
  · simp only [hinit, Bool.not_true, Bool.false_eq_true, if_false] at hrun
    have hc : ∀ res, famProcess user_message st.family_payload
        (st.ctx.current_question_key.getD "") = .next res → cepUnset res = true :=
      famProcess_cep user_message st.family_payload _ h
    revert hrun
    cases hp : famProcess user_message st.family_payload (st.ctx.current_question_key.getD "") with
    | raised => intro hrun; cases hrun
    | err e => intro hrun; cases hrun; simpa using h
    | next res =>
      have hres := hc res hp
      cases res with
      | none =>
        intro hrun
        simp only [famDetermine] at hrun
        cases hrun
      | some pl =>
        intro hrun
        simp only [famDetermine] at hrun
        split_ifs at hrun <;> (try cases hrun) <;>
          simp_all [cepUnset, famFinalize]
  · simp only [Bool.not_eq_true] at hinit
    simp only [hinit, Bool.not_false, if_true] at hrun
    have hc : ∀ res, famProcess user_message (some getFamilyPayloadTemplate)
        "premiumType" = .next res → cepUnset res = true :=
      famProcess_cep user_message (some getFamilyPayloadTemplate) "premiumType" rfl
    revert hrun
    cases hp : famProcess user_message (some getFamilyPayloadTemplate) "premiumType" with
    | raised => intro hrun; cases hrun
    | err e => intro hrun; cases hrun; simpa using h
    | next res =>
      have hres := hc res hp
      cases res with
      | none =>
        intro hrun
        simp only [famDetermine] at hrun
        cases hrun
      | some pl =>
        intro hrun
        simp only [famDetermine] at hrun
        split_ifs at hrun <;> (try cases hrun) <;>
          simp_all [cepUnset, famFinalize]

/-- Case analysis of the travel resolver on a stored payload: it
always returns a label, and that label is either `DONE` with the
contact mobile answered, or a question label whose unanswered
predicate holds. -/
theorem determine_some_spec (p : TravelPayload) (ctx : Ctx) :
    ∃ l, determineNextQuestion (some p) ctx = some l ∧
      ((l = "DONE" ∧ optStrTruthy p.contact_mobile = true) ∨
       (l ≠ "DONE" ∧ travelGuard l (some p) ctx = true)) := by
  unfold determineNextQuestion
  dsimp only
  by_cases h1 : (!optStrTruthy ctx.group_type_choice) = true
  · rw [if_pos h1]
    by_cases h2 : ctx.policy_type_choice = some "annual"
    · rw [if_pos h2]
      exact ⟨_, rfl, Or.inr ⟨by decide, by simpa [travelGuard] using h1⟩⟩
    · rw [if_neg h2]
      exact ⟨_, rfl, Or.inr ⟨by decide, by simpa [travelGuard] using h1⟩⟩
  rw [if_neg h1]
  by_cases h2 : ctx.policy_type_choice = some "annual"
  · rw [if_pos h2]
    by_cases h3 : (!optStrTruthy p.travel.zone) = true
    · rw [if_pos h3]
      exact ⟨_, rfl, Or.inr ⟨by decide, by simpa [travelGuard, zoneTruthy] using h3⟩⟩
    rw [if_neg h3]
    by_cases h4 : ctx.group_type_choice = some "family" ∧ ctx.num_adults = none
    · rw [if_pos h4]
      exact ⟨_, rfl, Or.inr ⟨by decide, by simp [travelGuard, h4.2]⟩⟩
    rw [if_neg h4]
    by_cases h5 : ctx.group_type_choice = some "family" ∧ ctx.num_children = none
    · rw [if_pos h5]
      exact ⟨_, rfl, Or.inr ⟨by decide, by simp [travelGuard, h5.2]⟩⟩
    rw [if_neg h5]
    by_cases h6 : p.travel.selectedAddOns.preExAddOn = none
    · rw [if_pos h6]
      exact ⟨_, rfl, Or.inr ⟨by decide, by simp [travelGuard, addonPresent, h6]⟩⟩
    rw [if_neg h6]
    by_cases h7 : p.coupon_code = none
    · rw [if_pos h7]
      exact ⟨_, rfl, Or.inr ⟨by decide, by simp [travelGuard, couponPresent, h7]⟩⟩
    rw [if_neg h7]
    by_cases h8 : (!optStrTruthy p.email) = true
    · rw [if_pos h8]
      exact ⟨_, rfl, Or.inr ⟨by decide, by simpa [travelGuard, emailTruthy] using h8⟩⟩
    rw [if_neg h8]
    by_cases h9 : (!optStrTruthy p.contact_mobile) = true
    · rw [if_pos h9]
      exact ⟨_, rfl, Or.inr ⟨by decide, by simpa [travelGuard, mobileTruthy] using h9⟩⟩
    rw [if_neg h9]
    exact ⟨_, rfl, Or.inl ⟨rfl, by simpa using h9⟩⟩
  rw [if_neg h2]
  by_cases s1 : ctx.group_type_choice = some "family" ∧ ctx.num_adults = none
  · rw [if_pos s1]
    exact ⟨_, rfl, Or.inr ⟨by decide, by simp [travelGuard, s1.2]⟩⟩
  rw [if_neg s1]
  by_cases s2 : ctx.group_type_choice = some "family" ∧ ctx.num_children = none
  · rw [if_pos s2]
    exact ⟨_, rfl, Or.inr ⟨by decide, by simp [travelGuard, s2.2]⟩⟩
  rw [if_neg s2]
  by_cases s3 : ctx.group_type_choice = some "group_adults" ∧ ctx.num_adults_group = none
  · rw [if_pos s3]
    exact ⟨_, rfl, Or.inr ⟨by decide, by simp [travelGuard, s3.2]⟩⟩
  rw [if_neg s3]
  by_cases s4 : ctx.group_type_choice = some "group_family" ∧ ctx.num_households = none
  · rw [if_pos s4]
    exact ⟨_, rfl, Or.inr ⟨by decide, by simp [travelGuard, s4.2]⟩⟩
  rw [if_neg s4]
  by_cases s5 : ctx.group_type_choice = some "group_family" ∧
      ctx.households_collected.getD 0 < ctx.households_to_collect.getD 0
  · rw [if_pos s5]
    exact ⟨_, rfl, Or.inr ⟨by decide, by simp [travelGuard, s5.2]⟩⟩
  rw [if_neg s5]
  by_cases s6 : (!countryTruthy p.travel.country_code) = true
  · rw [if_pos s6]
    exact ⟨_, rfl, Or.inr ⟨by decide, by simpa [travelGuard, payloadCountryTruthy] using s6⟩⟩
  rw [if_neg s6]
  by_cases s7 : (!optStrTruthy ctx.start_date) = true
  · rw [if_pos s7]
    exact ⟨_, rfl, Or.inr ⟨by decide, by simpa [travelGuard] using s7⟩⟩
  rw [if_neg s7]
  by_cases s8 : (!optStrTruthy ctx.end_date) = true
  · rw [if_pos s8]
    exact ⟨_, rfl, Or.inr ⟨by decide, by simpa [travelGuard] using s8⟩⟩
  rw [if_neg s8]
  by_cases s9 : p.travel.selectedAddOns.preExAddOn = none
  · rw [if_pos s9]
    exact ⟨_, rfl, Or.inr ⟨by decide, by simp [travelGuard, addonPresent, s9]⟩⟩
  rw [if_neg s9]
  by_cases s10 : p.travel.selectedAddOns.lossFFMAddOn = none
  · rw [if_pos s10]
    exact ⟨_, rfl, Or.inr ⟨by decide, by simp [travelGuard, addonPresent, s10]⟩⟩
  rw [if_neg s10]
  by_cases s11 : p.travel.selectedAddOns.flightDelayAddOn = none
  · rw [if_pos s11]
    exact ⟨_, rfl, Or.inr ⟨by decide, by simp [travelGuard, addonPresent, s11]⟩⟩
  rw [if_neg s11]
  by_cases s12 : p.coupon_code = none
  · rw [if_pos s12]
    exact ⟨_, rfl, Or.inr ⟨by decide, by simp [travelGuard, couponPresent, s12]⟩⟩
  rw [if_neg s12]
  by_cases s13 : (!optStrTruthy p.email) = true
  · rw [if_pos s13]
    exact ⟨_, rfl, Or.inr ⟨by decide, by simpa [travelGuard, emailTruthy] using s13⟩⟩
  rw [if_neg s13]
  by_cases s14 : (!optStrTruthy p.contact_mobile) = true
  · rw [if_pos s14]
    exact ⟨_, rfl, Or.inr ⟨by decide, by simpa [travelGuard, mobileTruthy] using s14⟩⟩
  rw [if_neg s14]
  exact ⟨_, rfl, Or.inl ⟨rfl, by simpa using s14⟩⟩

/-- Case analysis of the travel resolver on a missing payload: it
either raises or returns a question label whose unanswered predicate
holds. -/
theorem determine_none_spec (ctx : Ctx) :
    determineNextQuestion none ctx = none ∨
    ∃ l, determineNextQuestion none ctx = some l ∧ l ≠ "DONE" ∧
      travelGuard l none ctx = true := by
  unfold determineNextQuestion
  dsimp only
  by_cases h1 : (!optStrTruthy ctx.group_type_choice) = true
  · rw [if_pos h1]
    refine Or.inr ?_
    by_cases h2 : ctx.policy_type_choice = some "annual"
    · rw [if_pos h2]
      exact ⟨_, rfl, by decide, by simpa [travelGuard] using h1⟩
    · rw [if_neg h2]
      exact ⟨_, rfl, by decide, by simpa [travelGuard] using h1⟩
  rw [if_neg h1]
  by_cases h2 : ctx.policy_type_choice = some "annual"
  · rw [if_pos h2]
    exact Or.inl rfl
  rw [if_neg h2]
  by_cases s1 : ctx.group_type_choice = some "family" ∧ ctx.num_adults = none
  · rw [if_pos s1]
    exact Or.inr ⟨_, rfl, by decide, by simp [travelGuard, s1.2]⟩
  rw [if_neg s1]
  by_cases s2 : ctx.group_type_choice = some "family" ∧ ctx.num_children = none
  · rw [if_pos s2]
    exact Or.inr ⟨_, rfl, by decide, by simp [travelGuard, s2.2]⟩
  rw [if_neg s2]
  by_cases s3 : ctx.group_type_choice = some "group_adults" ∧ ctx.num_adults_group = none
  · rw [if_pos s3]
    exact Or.inr ⟨_, rfl, by decide, by simp [travelGuard, s3.2]⟩
  rw [if_neg s3]
  by_cases s4 : ctx.group_type_choice = some "group_family" ∧ ctx.num_households = none
  · rw [if_pos s4]
    exact Or.inr ⟨_, rfl, by decide, by simp [travelGuard, s4.2]⟩
  rw [if_neg s4]
  by_cases s5 : ctx.group_type_choice = some "group_family" ∧
      ctx.households_collected.getD 0 < ctx.households_to_collect.getD 0
  · rw [if_pos s5]
    exact Or.inr ⟨_, rfl, by decide, by simp [travelGuard, s5.2]⟩
  rw [if_neg s5]
  exact Or.inl rfl

/-- The travel resolver returns `none` (a raise on a missing payload)
only when the stored payload is `None`. -/
theorem determine_none_payload (payload : Option TravelPayload) (ctx : Ctx)
    (h : determineNextQuestion payload ctx = none) : payload = none := by
  cases payload with
  | none => rfl
  | some p =>
    obtain ⟨l, hl, _⟩ := determine_some_spec p ctx
    rw [h] at hl
    cases hl

/-- The travel resolver answers `DONE` only when the stored payload has
a truthy contact mobile. -/
theorem determine_done_mobile (payload : Option TravelPayload) (ctx : Ctx)
    (h : determineNextQuestion payload ctx = some "DONE") : mobileTruthy payload = true := by
  cases payload with
  | none =>
    rcases determine_none_spec ctx with hn | ⟨l, hl, hne, _⟩
    · rw [h] at hn; cases hn
    · rw [h] at hl
      cases hl
      exact absurd rfl hne
  | some p =>
    obtain ⟨l, hl, hd⟩ := determine_some_spec p ctx
    rw [h] at hl
    cases hl
    rcases hd with ⟨_, hm⟩ | ⟨hne, _⟩
    · simpa [mobileTruthy] using hm
    · exact absurd rfl hne

/-- Combined facts about one successful travel answer-processing
step: payload someness is preserved (and established by the
policy-type branch), the context is untouched outside the
context-writing labels, and the payload is untouched inside
them. -/
theorem processNext_facts (user_message : String) (payload : Option TravelPayload)
    (ctx : Ctx) (p : Option TravelPayload) (c : Ctx) (err : Option String)
    (h : processUserAnswer user_message payload ctx = .next p c err) :
    (payload.isSome = true → p.isSome = true) ∧
    (ctx.current_question_key.getD "" = "policy_type" → p.isSome = true) ∧
    (ctx.current_question_key.getD "" ∉ ctxModLabels →
      ctx.current_question_key.getD "" ≠ "policy_type" → c = ctx) ∧
    (ctx.current_question_key.getD "" ∈ ctxModLabels → p = payload) := by
  unfold processUserAnswer at h
  dsimp only at h
  by_cases q1 : ctx.current_question_key.getD "" = "policy_type"
  · rw [if_pos q1] at h
    (repeat' split at h) <;> (try cases h) <;>
      exact ⟨by simp_all, by simp_all, by simp_all [ctxModLabels], by simp_all [ctxModLabels]⟩
  rw [if_neg q1] at h
  by_cases q2 : ctx.current_question_key.getD "" = "group_type_single"
  · rw [if_pos q2] at h
    (repeat' split at h) <;> (try cases h) <;>
      exact ⟨by simp_all, by simp_all, by simp_all [ctxModLabels], by simp_all [ctxModLabels]⟩
  rw [if_neg q2] at h
  by_cases q3 : ctx.current_question_key.getD "" = "group_type_annual"
  · rw [if_pos q3] at h
    (repeat' split at h) <;> (try cases h) <;>
      exact ⟨by simp_all, by simp_all, by simp_all [ctxModLabels], by simp_all [ctxModLabels]⟩
  rw [if_neg q3] at h
  by_cases q4 : ctx.current_question_key.getD "" = "zone"
  · rw [if_pos q4] at h
    (repeat' split at h) <;> (try cases h) <;>
      exact ⟨by simp_all, by simp_all, by simp_all [ctxModLabels], by simp_all [ctxModLabels]⟩
  rw [if_neg q4] at h
  by_cases q5 : ctx.current_question_key.getD "" = "destination"
  · rw [if_pos q5] at h
    (repeat' split at h) <;> (try cases h) <;>
      exact ⟨by simp_all, by simp_all, by simp_all [ctxModLabels], by simp_all [ctxModLabels]⟩
  rw [if_neg q5] at h
  by_cases q6 : ctx.current_question_key.getD "" = "start_date"
  · rw [if_pos q6] at h
    (repeat' split at h) <;> (try cases h) <;>
      exact ⟨by simp_all, by simp_all, by simp_all [ctxModLabels], by simp_all [ctxModLabels]⟩
  rw [if_neg q6] at h
  by_cases q7 : ctx.current_question_key.getD "" = "end_date"
  · rw [if_pos q7] at h
    (repeat' split at h) <;> (try cases h) <;>
      exact ⟨by simp_all, by simp_all, by simp_all [ctxModLabels], by simp_all [ctxModLabels]⟩
  rw [if_neg q7] at h
  by_cases q8 : ctx.current_question_key.getD "" = "num_adults"
  · rw [if_pos q8] at h
    (repeat' split at h) <;> (try cases h) <;>
      exact ⟨by simp_all, by simp_all, by simp_all [ctxModLabels], by simp_all [ctxModLabels]⟩
  rw [if_neg q8] at h
  by_cases q9 : ctx.current_question_key.getD "" = "num_children"
  · rw [if_pos q9] at h
    (repeat' split at h) <;> (try cases h) <;>
      exact ⟨by simp_all, by simp_all, by simp_all [ctxModLabels], by simp_all [ctxModLabels]⟩
  rw [if_neg q9] at h
  by_cases q10 : ctx.current_question_key.getD "" = "num_adults_group"
  · rw [if_pos q10] at h
    (repeat' split at h) <;> (try cases h) <;>
      exact ⟨by simp_all, by simp_all, by simp_all [ctxModLabels], by simp_all [ctxModLabels]⟩
  rw [if_neg q10] at h
  by_cases q11 : ctx.current_question_key.getD "" = "num_households"
  · rw [if_pos q11] at h
    (repeat' split at h) <;> (try cases h) <;>
      exact ⟨by simp_all, by simp_all, by simp_all [ctxModLabels], by simp_all [ctxModLabels]⟩
  rw [if_neg q11] at h
  by_cases q12 : ctx.current_question_key.getD "" = "household_info"
  · rw [if_pos q12] at h
    (repeat' split at h) <;> (try cases h) <;>
      exact ⟨by simp_all, by simp_all, by simp_all [ctxModLabels], by simp_all [ctxModLabels]⟩
  rw [if_neg q12] at h
  by_cases qa : pyStartsWith (ctx.current_question_key.getD "") "addon_" = true
  · rw [if_pos qa] at h
    (repeat' split at h) <;> (try cases h) <;>
      exact ⟨by simp_all, by simp_all, by simp_all [ctxModLabels], by simp_all [ctxModLabels]⟩
  rw [if_neg qa] at h
  by_cases q14 : ctx.current_question_key.getD "" = "coupon_code"
  · rw [if_pos q14] at h
    (repeat' split at h) <;> (try cases h) <;>
      exact ⟨by simp_all, by simp_all, by simp_all [ctxModLabels], by simp_all [ctxModLabels]⟩
  rw [if_neg q14] at h
  by_cases q15 : ctx.current_question_key.getD "" = "email"
  · rw [if_pos q15] at h
    (repeat' split at h) <;> (try cases h) <;>
      exact ⟨by simp_all, by simp_all, by simp_all [ctxModLabels], by simp_all [ctxModLabels]⟩
  rw [if_neg q15] at h
  by_cases q16 : ctx.current_question_key.getD "" = "contact_mobile"
  · rw [if_pos q16] at h
    (repeat' split at h) <;> (try cases h) <;>
      exact ⟨by simp_all, by simp_all, by simp_all [ctxModLabels], by simp_all [ctxModLabels]⟩
  rw [if_neg q16] at h
  cases h
  exact ⟨by simp_all, by simp_all, by simp_all [ctxModLabels], by simp_all [ctxModLabels]⟩

/-- Right after a policy-type answer the resolver never says `DONE`:
both fresh templates still have an unanswered contact mobile. -/
theorem determine_template_not_done (c : Ctx) :
    determineNextQuestion (some getSingleTripTemplate) c ≠ some "DONE" ∧
    determineNextQuestion (some getAnnualTripTemplate) c ≠ some "DONE" := by
  constructor <;>
    · intro h
      have := determine_done_mobile _ _ h
      simp [mobileTruthy, getSingleTripTemplate, getAnnualTripTemplate, optStrTruthy] at this

/-- A raising travel turn leaves the persisted session untouched,
under the reachability conditions of `SessionInv`. -/
theorem runTravel_exn_eq (user_message : String) (st : Store)
    (hpay : optStrTruthy st.ctx.current_question_key = true →
      st.ctx.current_question_key ≠ some "policy_type" → st.travel_payload.isSome = true)
    (hmob : ∀ L ∈ ctxModLabels, st.ctx.current_question_key = some L →
      mobileTruthy st.travel_payload = false) :
    ∀ st1, runTravel user_message st = .exn st1 → st1 = st := by
  intro st1 hrun
  unfold runTravel at hrun
  by_cases hm : optStrTruthy st.ctx.current_question_key = true
  · simp only [hm, Bool.not_true, Bool.false_eq_true, if_false] at hrun
    cases hp : processUserAnswer user_message st.travel_payload st.ctx with
    | raised => rw [hp] at hrun; cases hrun; rfl
    | early e => rw [hp] at hrun; cases hrun
    | next p c err =>
      rw [hp] at hrun
      cases err with
      | some e => cases hrun
      | none =>
        dsimp only at hrun
        cases hd : determineNextQuestion p c with
        | none =>
          -- the resolver raises only on a `None` payload, which `SessionInv` rules out
          exfalso
          have hpn : p = none := determine_none_payload p c hd
          by_cases hpt : st.ctx.current_question_key.getD "" = "policy_type"
          · have := (processNext_facts user_message st.travel_payload st.ctx p c none hp).2.1 hpt
            rw [hpn] at this
            cases this
          · have hne : st.ctx.current_question_key ≠ some "policy_type" := by
              intro hx
              rw [hx] at hpt
              exact hpt rfl
            have hs := hpay hm hne
            have := (processNext_facts user_message st.travel_payload st.ctx p c none hp).1 hs
            rw [hpn] at this
            cases this
        | some k =>
          by_cases hk : k = "DONE"
          · subst hk
            rw [hd] at hrun
            -- a finalization raise: the context write-back was a no-op
            have hmobp : mobileTruthy p = true := determine_done_mobile p c hd
            have hceq : c = st.ctx := by
              by_cases hmem : st.ctx.current_question_key.getD "" ∈ ctxModLabels
              · exfalso
                have hpp : p = st.travel_payload :=
                  (processNext_facts user_message st.travel_payload st.ctx p c none hp).2.2.2 hmem
                have hsome : ∃ L ∈ ctxModLabels, st.ctx.current_question_key = some L := by
                  cases hq : st.ctx.current_question_key with
                  | none => rw [hq] at hmem; simp [ctxModLabels] at hmem
                  | some s => exact ⟨s, by rw [hq] at hmem; simpa using hmem, rfl⟩
                obtain ⟨L, hL, hLq⟩ := hsome
                have := hmob L hL hLq
                rw [hpp] at hmobp
                rw [this] at hmobp
                cases hmobp
              · by_cases hpt : st.ctx.current_question_key.getD "" = "policy_type"
                · exfalso
                  -- after a policy reset the payload is a fresh template, never DONE
                  have hps : p = some getAnnualTripTemplate ∨ p = some getSingleTripTemplate := by
                    unfold processUserAnswer at hp
                    dsimp only at hp
                    rw [if_pos hpt] at hp
                    split at hp
                    · cases hp; exact Or.inl rfl
                    · cases hp; exact Or.inr rfl
                  rcases hps with hq | hq <;> rw [hq] at hd
                  · exact (determine_template_not_done _).2 hd
                  · exact (determine_template_not_done _).1 hd
                · exact (processNext_facts user_message st.travel_payload st.ctx p c none hp).2.2.1
                    hmem hpt
            cases p with
            | none => cases hrun; rw [hceq]
            | some pl =>
              dsimp only at hrun
              cases hf : finalizePayload pl c with
              | none => rw [hf] at hrun; cases hrun; rw [hceq]
              | some fin => rw [hf] at hrun; cases hrun
          · rw [hd] at hrun
            split at hrun <;> simp_all
  · simp [hm] at hrun

/-- Every raise of the family agent happens before any persistence:
the store at the raise is the incoming store. -/
theorem runFamily_exn_eq (user_message : String) (st : Store) :
    ∀ st1, runFamily user_message st = .exn st1 → st1 = st := by
  intro st1 hrun
  unfold runFamily at hrun
  dsimp only at hrun
  (repeat' split at hrun) <;> (try cases hrun) <;> rfl

/-- The quote stage is internally fail-soft: it never raises. -/
theorem runQuote_not_exn (quote_resp : String) (st : Store) :
    ∀ st1, runQuote quote_resp st = .exn st1 → False := by
  intro st1 hrun
  unfold runQuote at hrun
  dsimp only at hrun
  by_cases h1 : (!optStrTruthy st.ctx.primary_product) = true
  · rw [if_pos h1] at hrun; cases hrun
  rw [if_neg h1] at hrun
  by_cases h2 : (!if st.ctx.primary_product.getD "" = "FAMILY" then st.family_payload.isSome
      else st.travel_payload.isSome) = true
  · rw [if_pos h2] at hrun; cases hrun
  · rw [if_neg h2] at hrun; cases hrun

/-- A first-contact family turn (no awaiting-field marker) cannot
raise: it processes the trigger message against the fresh template. -/
theorem runFamily_fresh_not_exn (user_message : String) (st : Store)
    (hfal : optStrTruthy st.ctx.current_question_key = false) :
    ∀ st1, runFamily user_message st = .exn st1 → False := by
  intro st1 hrun
  simp [runFamily, famProcess, famDetermine, hfal, getFamilyPayloadTemplate] at hrun

/-- C9: whenever the dispatch of an inbound message raises an
unhandled exception, the orchestrator replies with the generic apology
and the persisted session document (stage, chat history, collected
payloads, conversation context) is exactly what it was before the
message was handled.  `SessionInv` captures the reachability facts
this relies on: an uninitiated session has no awaiting-field marker, a
travel session past the first question has a stored payload, and the
final (contact-mobile) field is unanswered while a context-writing
question is pending. -/
theorem claim_C9 (user_message : String) (intent : Product × String) (quote_resp : String)
    (st st1 : Store) (hinv : SessionInv st)
    (hdis : dispatch user_message intent quote_resp st = .exn st1) :
    st1 = st ∧ orchestrateChat user_message intent quote_resp st = (apologyMsg, st) := by
  have hst : st1 = st := by
    unfold dispatch at hdis
    by_cases hgreet : pyLower (pyStrip user_message) = "hi" ∨
        pyLower (pyStrip user_message) = "hello"
    · rw [if_pos hgreet] at hdis
      cases hdis
    rw [if_neg hgreet] at hdis
    dsimp only at hdis
    by_cases hstage : st.stage = "" ∨ st.stage = "initial"
    · rw [if_pos hstage] at hdis
      have hfal : optStrTruthy st.ctx.current_question_key = false := hinv.1 hstage.symm
      by_cases hgint : intent.2 = "greeting"
      · rw [if_pos hgint] at hdis
        cases hdis
      rw [if_neg hgint] at hdis
      cases hi : intent.1 with
      | TRAVEL =>
        rw [hi] at hdis
        dsimp only at hdis
        cases hr : runTravel user_message
            { st with stage := "travel_collection",
                      ctx := { st.ctx with primary_product := some "TRAVEL" } } with
        | ok out s => rw [hr] at hdis; cases hdis
        | exn s =>
          exfalso
          simp [runTravel, hfal] at hr
      | FAMILY =>
        rw [hi] at hdis
        dsimp only at hdis
        cases hr : runFamily user_message
            { st with stage := "family_collection",
                      ctx := { st.ctx with primary_product := some "FAMILY" } } with
        | ok out s => rw [hr] at hdis; cases hdis
        | exn s =>
          have hfal2 : optStrTruthy ({ st with
              stage := "family_collection"
              ctx := { st.ctx with primary_product := some "FAMILY" } } : Store).ctx.current_question_key = false := hfal
          exact (runFamily_fresh_not_exn user_message _ hfal2 s hr).elim
      | POLICY_CLAIM_STATUS => rw [hi] at hdis; cases hdis
      | UNKNOWN => rw [hi] at hdis; cases hdis
    rw [if_neg hstage] at hdis
    by_cases htrav : st.stage = "travel_collection"
    · rw [if_pos htrav] at hdis
      cases hr : runTravel user_message st with
      | ok out s => rw [hr] at hdis; cases hdis
      | exn s =>
        rw [hr] at hdis
        have hs : st1 = s := by cases hdis; rfl
        rw [hs]
        exact runTravel_exn_eq user_message st
          (fun a b => hinv.2.1 htrav a b) (fun L hL hq => hinv.2.2 htrav L hL hq) s hr
    rw [if_neg htrav] at hdis
    by_cases hfam : st.stage = "family_collection"
    · rw [if_pos hfam] at hdis
      cases hr : runFamily user_message st with
      | ok out s => rw [hr] at hdis; cases hdis
      | exn s =>
        rw [hr] at hdis
        have hs : st1 = s := by cases hdis; rfl
        rw [hs]
        exact runFamily_exn_eq user_message st s hr
    rw [if_neg hfam] at hdis
    by_cases hq : st.stage = "quote_generation"
    · rw [if_pos hq] at hdis
      cases hr : runQuote quote_resp st with
      | ok out s => rw [hr] at hdis; cases hdis
      | exn s => exact (runQuote_not_exn quote_resp st s hr).elim
    rw [if_neg hq] at hdis
    cases hdis
  subst hst
  refine ⟨rfl, ?_⟩
  unfold orchestrateChat
  rw [hdis]
  rfl

/-- Witness for C8: the first family turn of a fresh session keeps
`CEPReferralCode` unset, and a concrete single-trip finalization
leaves the `zone` leaf exactly as in the template. -/
theorem claim_C8_witness :
    cepUnset ({ defaultStore with
        ctx := { defaultCtx with current_question_key := some "insured_party" }
        family_payload := some { getFamilyPayloadTemplate with premiumType := some "monthly" } } :
      Store).family_payload = true ∧
    ∃ fin, finalizePayload getSingleTripTemplate
        { defaultCtx with policy_type_choice := some "single"
                          group_type_choice := some "myself"
                          start_date := some "2025-03-01"
                          end_date := some "2025-03-05" } = some fin ∧
      fin.travel.zone = getSingleTripTemplate.travel.zone := by
  constructor
  · exact claim_C8.2.2.1 "family please" defaultStore
      (famQuestionMap "insured_party") _ rfl (by decide)
  · cases hq : finalizePayload getSingleTripTemplate
        { defaultCtx with policy_type_choice := some "single"
                          group_type_choice := some "myself"
                          start_date := some "2025-03-01"
                          end_date := some "2025-03-05" } with
    | none => exact absurd hq (by decide)
    | some fin => exact ⟨fin, rfl, claim_C8.2.2.2 _ _ fin hq⟩

/-- Witness for C9: a malformed adult-count answer in a travel session
raises inside the dispatch; the orchestrator apologizes and the
session is unchanged. -/
theorem claim_C9_witness :
    SessionInv stNumAdults ∧
    dispatch "abc" (Product.TRAVEL, "purchase") "quote" stNumAdults = .exn stNumAdults ∧
    orchestrateChat "abc" (Product.TRAVEL, "purchase") "quote" stNumAdults =
      (apologyMsg, stNumAdults) :=
  ⟨by decide, by decide,
   (claim_C9 "abc" (Product.TRAVEL, "purchase") "quote" stNumAdults stNumAdults
     (by decide) (by decide)).2⟩

/-- A full annual/myself travel conversation: six questions, then
completion. -/
theorem travel_run_annual_myself (m0 a1 a2 a3 a4 a5 a6 : String)
    (h1 : containsSub (pyLower (pyStrip a1)) "annual" = true)
    (h2 : containsSub (pyLower (pyStrip a2)) "family" = false)
    (h5 : (pyStrip a5).isEmpty = false)
    (h6 : (pyStrip a6).isEmpty = false) :
    (travelTranscript defaultStore [m0, a1, a2, a3, a4, a5, a6]).map
        (fun r => (r.1, r.2.stage)) =
      some ([questionMap "policy_type", questionMap "group_type_annual", questionMap "zone",
             questionMap "addon_pre_ex", questionMap "email", questionMap "contact_mobile",
             travelDoneMsg], "quote_generation") := by
  simp [travelTranscript, runTravel, processUserAnswer, determineNextQuestion, finalizePayload,
    travelDoneMsg, optStrTruthy, optStrTruthy_A2A3, isEmpty_A2A3, defaultStore, defaultCtx,
    getAnnualTripTemplate, h1, h2, h5, h6, labelNonEmpty, questionNoNum, startsWithAddonFacts]

/-- A full annual/family travel conversation: eight questions (within
the two-adult, five-child limit), then completion. -/
theorem travel_run_annual_family (m0 a1 a2 a3 a4 a5 a6 a7 a8 : String) (k4 k5 : Int)
    (h1 : containsSub (pyLower (pyStrip a1)) "annual" = true)
    (h2 : containsSub (pyLower (pyStrip a2)) "family" = true)
    (h4 : pyInt (pyStrip a4) = some k4)
    (h5 : pyInt (pyStrip a5) = some k5)
    (hlim : ¬ (k4 > 2 ∨ k5 > 5))
    (h7 : (pyStrip a7).isEmpty = false)
    (h8 : (pyStrip a8).isEmpty = false) :
    (travelTranscript defaultStore [m0, a1, a2, a3, a4, a5, a6, a7, a8]).map
        (fun r => (r.1, r.2.stage)) =
      some ([questionMap "policy_type", questionMap "group_type_annual", questionMap "zone",
             questionMap "num_adults", questionMap "num_children", questionMap "addon_pre_ex",
             questionMap "email", questionMap "contact_mobile",
             travelDoneMsg], "quote_generation") := by
  simp [travelTranscript, runTravel, processUserAnswer, determineNextQuestion, finalizePayload,
    travelDoneMsg, optStrTruthy, optStrTruthy_A2A3, isEmpty_A2A3, defaultStore, defaultCtx,
    getAnnualTripTemplate, h1, h2, h4, h5, hlim, h7, h8, labelNonEmpty, questionNoNum,
    startsWithAddonFacts]

set_option maxHeartbeats 1600000 in
/-- A full single-trip/myself travel conversation: ten questions, then
completion. -/
theorem travel_run_single_myself (m0 a1 aG aD aS aE b1 b2 b3 aEm aMb : String)
    (d1 d2 : Nat × Nat × Nat)
    (h1 : containsSub (pyLower (pyStrip a1)) "annual" = false)
    (hg1 : (containsSub (pyLower (pyStrip aG)) "group of families" ||
            containsSub (pyLower (pyStrip aG)) "households") = false)
    (hg2 : containsSub (pyLower (pyStrip aG)) "group of adults" = false)
    (hg3 : containsSub (pyLower (pyStrip aG)) "family" = false)
    (hdLen : ¬ 10 < (pySplitComma (pyStrip aD)).length)
    (hdAll : ∀ x ∈ pySplitComma (pyStrip aD), ¬ countryLookup (pyLower (pyStrip x)) = none)
    (hs : parseDate (pyReplace (pyStrip aS) "/" "-") = some d1)
    (he : parseDate (pyReplace (pyStrip aE) "/" "-") = some d2)
    (hEm : (pyStrip aEm).isEmpty = false)
    (hMb : (pyStrip aMb).isEmpty = false) :
    (travelTranscript defaultStore [m0, a1, aG, aD, aS, aE, b1, b2, b3, aEm, aMb]).map
        (fun r => (r.1, r.2.stage)) =
      some ([questionMap "policy_type", questionMap "group_type_single", questionMap "destination",
             questionMap "start_date", questionMap "end_date", questionMap "addon_pre_ex",
             questionMap "addon_ffm", questionMap "addon_flight_delay", questionMap "email",
             questionMap "contact_mobile", travelDoneMsg], "quote_generation") := by
  have hcode := destCodes_nonEmpty aD hdAll
  have hdNone : (∃ x ∈ pySplitComma (pyStrip aD), countryLookup (pyLower (pyStrip x)) = none) =
      False := eq_false (by simpa using hdAll)
  have hse := parseDate_ne_empty _ _ hs
  have hee := parseDate_ne_empty _ _ he
  simp [travelTranscript, runTravel, processUserAnswer, determineNextQuestion, finalizePayload,
    travelDoneMsg, optStrTruthy, countryTruthy, defaultStore, defaultCtx,
    getSingleTripTemplate, h1, hg1, hg2, hg3, hdLen, hdAll, hs, he, hEm, hMb, hcode, hdNone, hse, hee,
    labelNonEmpty, questionNoNum, startsWithAddonFacts]

set_option maxHeartbeats 1600000 in
/-- A full single-trip/family travel conversation: twelve questions,
then completion. -/
theorem travel_run_single_family (m0 a1 aG a3 a4 aD aS aE b1 b2 b3 aEm aMb : String)
    (k3 k4 : Int) (d1 d2 : Nat × Nat × Nat)
    (h1 : containsSub (pyLower (pyStrip a1)) "annual" = false)
    (hg1 : (containsSub (pyLower (pyStrip aG)) "group of families" ||
            containsSub (pyLower (pyStrip aG)) "households") = false)
    (hg2 : containsSub (pyLower (pyStrip aG)) "group of adults" = false)
    (hg3 : containsSub (pyLower (pyStrip aG)) "family" = true)
    (h3 : pyInt (pyStrip a3) = some k3)
    (h4 : pyInt (pyStrip a4) = some k4)
    (hdLen : ¬ 10 < (pySplitComma (pyStrip aD)).length)
    (hdAll : ∀ x ∈ pySplitComma (pyStrip aD), ¬ countryLookup (pyLower (pyStrip x)) = none)
    (hs : parseDate (pyReplace (pyStrip aS) "/" "-") = some d1)
    (he : parseDate (pyReplace (pyStrip aE) "/" "-") = some d2)
    (hEm : (pyStrip aEm).isEmpty = false)
    (hMb : (pyStrip aMb).isEmpty = false) :
    (travelTranscript defaultStore [m0, a1, aG, a3, a4, aD, aS, aE, b1, b2, b3, aEm, aMb]).map
        (fun r => (r.1, r.2.stage)) =
      some ([questionMap "policy_type", questionMap "group_type_single", questionMap "num_adults",
             questionMap "num_children", questionMap "destination",
             questionMap "start_date", questionMap "end_date", questionMap "addon_pre_ex",
             questionMap "addon_ffm", questionMap "addon_flight_delay", questionMap "email",
             questionMap "contact_mobile", travelDoneMsg], "quote_generation") := by
  have hcode := destCodes_nonEmpty aD hdAll
  have hdNone : (∃ x ∈ pySplitComma (pyStrip aD), countryLookup (pyLower (pyStrip x)) = none) =
      False := eq_false (by simpa using hdAll)
  have hse := parseDate_ne_empty _ _ hs
  have hee := parseDate_ne_empty _ _ he
  simp [travelTranscript, runTravel, processUserAnswer, determineNextQuestion, finalizePayload,
    travelDoneMsg, optStrTruthy, countryTruthy, defaultStore, defaultCtx,
    getSingleTripTemplate, h1, hg1, hg2, hg3, h3, h4, hdLen, hdAll, hs, he, hEm, hMb, hcode, hdNone,
    hse, hee, labelNonEmpty, questionNoNum, startsWithAddonFacts]

set_option maxHeartbeats 1600000 in
/-- A full single-trip/group-of-adults travel conversation: eleven
questions, then completion. -/
theorem travel_run_single_group_adults (m0 a1 aG a3 aD aS aE b1 b2 b3 aEm aMb : String)
    (k3 : Int) (d1 d2 : Nat × Nat × Nat)
    (h1 : containsSub (pyLower (pyStrip a1)) "annual" = false)
    (hg1 : (containsSub (pyLower (pyStrip aG)) "group of families" ||
            containsSub (pyLower (pyStrip aG)) "households") = false)
    (hg2 : containsSub (pyLower (pyStrip aG)) "group of adults" = true)
    (h3 : pyInt (pyStrip a3) = some k3)
    (hdLen : ¬ 10 < (pySplitComma (pyStrip aD)).length)
    (hdAll : ∀ x ∈ pySplitComma (pyStrip aD), ¬ countryLookup (pyLower (pyStrip x)) = none)
    (hs : parseDate (pyReplace (pyStrip aS) "/" "-") = some d1)
    (he : parseDate (pyReplace (pyStrip aE) "/" "-") = some d2)
    (hEm : (pyStrip aEm).isEmpty = false)
    (hMb : (pyStrip aMb).isEmpty = false) :
    (travelTranscript defaultStore [m0, a1, aG, a3, aD, aS, aE, b1, b2, b3, aEm, aMb]).map
        (fun r => (r.1, r.2.stage)) =
      some ([questionMap "policy_type", questionMap "group_type_single",
             questionMap "num_adults_group", questionMap "destination",
             questionMap "start_date", questionMap "end_date", questionMap "addon_pre_ex",
             questionMap "addon_ffm", questionMap "addon_flight_delay", questionMap "email",
             questionMap "contact_mobile", travelDoneMsg], "quote_generation") := by
  have hcode := destCodes_nonEmpty aD hdAll
  have hdNone : (∃ x ∈ pySplitComma (pyStrip aD), countryLookup (pyLower (pyStrip x)) = none) =
      False := eq_false (by simpa using hdAll)
  have hse := parseDate_ne_empty _ _ hs
  have hee := parseDate_ne_empty _ _ he
  simp [travelTranscript, runTravel, processUserAnswer, determineNextQuestion, finalizePayload,
    travelDoneMsg, optStrTruthy, countryTruthy, defaultStore, defaultCtx,
    getSingleTripTemplate, h1, hg1, hg2, h3, hdLen, hdAll, hs, he, hEm, hMb, hcode, hdNone,
    hse, hee, labelNonEmpty, questionNoNum, startsWithAddonFacts]

/-- A full family conversation: the trigger message is consumed as the
premium-frequency answer, then five questions, then completion — six
processed messages for the six fields of the family schema. -/
theorem family_run_linear (m0 a1 a2 a3 a4 a5 : String) (d : Nat × Nat × Nat)
    (h2 : parseDate (pyReplace (pyLower (pyStrip a2)) "/" "-") = some d) :
    (famTranscript defaultStore [m0, a1, a2, a3, a4, a5]).map (fun r => (r.1, r.2.stage)) =
      some ([famQuestionMap "insured_party", famQuestionMap "policyInceptionDate",
             famQuestionMap "email", famQuestionMap "contact_mobile", famQuestionMap "promoCode",
             famDoneMsg], "quote_generation") := by
  by_cases hc1 : containsSub (pyLower (pyStrip a1)) "myself with child" = true
  · simp [famTranscript, runFamily, famProcess, famDetermine, famFinalize, famDoneMsg,
      optStrTruthy, defaultStore, defaultCtx, getFamilyPayloadTemplate, h2, hc1, labelNonEmpty, famLabelNonEmpty]
  · by_cases hc2 : containsSub (pyLower (pyStrip a1)) "family" = true
    · simp [famTranscript, runFamily, famProcess, famDetermine, famFinalize, famDoneMsg,
        optStrTruthy, defaultStore, defaultCtx, getFamilyPayloadTemplate, h2, hc1, hc2,
        labelNonEmpty, famLabelNonEmpty]
    · simp [famTranscript, runFamily, famProcess, famDetermine, famFinalize, famDoneMsg,
        optStrTruthy, defaultStore, defaultCtx, getFamilyPayloadTemplate, h2, hc1, hc2,
        labelNonEmpty, famLabelNonEmpty]

/-- Unfolding one accepted turn of a transcript. -/
theorem travelTranscript_cons_ok (m out : String) (st st1 : Store) (ms : List String)
    (h : runTravel m st = RunOut.ok out st1) :
    travelTranscript st (m :: ms) =
      (travelTranscript st1 ms).map fun r => (out :: r.1, r.2) := by
  simp [travelTranscript, h]

/-- One accepted household answer in the group-of-households loop:
the collected counter advances and either the household question is
re-asked or, once all declared households are in, the destination
question follows. -/
theorem gf_step (n c : Int) (data : List (Int × Int)) (msg p0 p1 : String)
    (rest : List String) (a b : Int)
    (heq : (pySplitComma (pyReplace (pyStrip msg) "and" ",")).map pyStrip = p0 :: p1 :: rest)
    (hp0 : pyInt p0 = some a) (hp1 : pyInt p1 = some b) :
    runTravel msg (gfLoopStore n c data) =
      if c + 1 < n then
        RunOut.ok (questionMap "household_info") (gfLoopStore n (c + 1) (data ++ [(a, b)]))
      else
        RunOut.ok (questionMap "destination") (gfDestStore n (c + 1) (data ++ [(a, b)])) := by
  by_cases hlt : c + 1 < n
  · simp [runTravel, processUserAnswer, determineNextQuestion, gfLoopStore, gfDestStore,
      optStrTruthy, heq, hp0, hp1, defaultStore, defaultCtx, getSingleTripTemplate,
      questionNoNum, labelNonEmpty, countryTruthy, hlt]
  · simp [runTravel, processUserAnswer, determineNextQuestion, gfLoopStore, gfDestStore,
      optStrTruthy, heq, hp0, hp1, defaultStore, defaultCtx, getSingleTripTemplate,
      questionNoNum, labelNonEmpty, countryTruthy, hlt]

/-- The whole household loop: from `c` collected out of `n`, a list of
accepted household answers covering the remaining `n - c` households
produces the household question until the last answer, which is
followed by the destination question. -/
theorem gf_loop (hs : List String) :
    ∀ (n c : Int) (data : List (Int × Int)),
      c + (hs.length : Int) = n → c < n →
      (∀ m ∈ hs, ∃ p0 p1 rest a b,
          (pySplitComma (pyReplace (pyStrip m) "and" ",")).map pyStrip = p0 :: p1 :: rest ∧
          pyInt p0 = some a ∧ pyInt p1 = some b) →
      ∃ data2, travelTranscript (gfLoopStore n c data) hs =
        some (List.replicate (hs.length - 1) (questionMap "household_info") ++
              [questionMap "destination"], gfDestStore n n data2) := by
  induction hs with
  | nil =>
    intro n c data hlen hlt _
    simp at hlen
    omega
  | cons m t ih =>
    intro n c data hlen hlt hok
    obtain ⟨p0, p1, rest, a, b, heq, hp0, hp1⟩ := hok m (List.mem_cons_self m t)
    have hstep := gf_step n c data m p0 p1 rest a b heq hp0 hp1
    cases t with
    | nil =>
      have hn : c + 1 = n := by simpa using hlen
      rw [if_neg (by omega)] at hstep
      refine ⟨data ++ [(a, b)], ?_⟩
      rw [travelTranscript_cons_ok _ _ _ _ _ hstep]
      simp [travelTranscript, hn]
    | cons m2 t2 =>
      have hlt2 : c + 1 < n := by
        simp only [List.length_cons] at hlen
        push_cast at hlen
        omega
      rw [if_pos hlt2] at hstep
      obtain ⟨data2, htr⟩ := ih n (c + 1) (data ++ [(a, b)])
        (by simp only [List.length_cons] at hlen ⊢; push_cast at hlen ⊢; omega) hlt2
        (fun x hx => hok x (List.mem_cons_of_mem _ hx))
      refine ⟨data2, ?_⟩
      rw [travelTranscript_cons_ok _ _ _ _ _ hstep, htr]
      simp [List.replicate_succ]

/-- The opening of a single-trip group-of-households conversation:
trigger, policy choice, group choice, household count, ending in the
loop state with the first household question asked. -/
theorem gf_prefix (m0 a1 aG aH : String) (n : Int)
    (h1 : containsSub (pyLower (pyStrip a1)) "annual" = false)
    (hg1 : (containsSub (pyLower (pyStrip aG)) "group of families" ||
            containsSub (pyLower (pyStrip aG)) "households") = true)
    (hn : pyInt (pyStrip aH) = some n)
    (hpos : 0 < n) :
    travelTranscript defaultStore [m0, a1, aG, aH] =
      some ([questionMap "policy_type", questionMap "group_type_single",
             questionMap "num_households", questionMap "household_info"],
            gfLoopStore n 0 []) := by
  simp [travelTranscript, runTravel, processUserAnswer, determineNextQuestion, gfLoopStore,
    optStrTruthy, defaultStore, defaultCtx, getSingleTripTemplate, h1, hg1, hn, hpos,
    labelNonEmpty, questionNoNum]

set_option maxHeartbeats 1600000 in
/-- The closing of a single-trip group-of-households conversation,
from the state awaiting the destination answer: eight more accepted
answers reach completion. -/
theorem gf_tail (n : Int) (data2 : List (Int × Int)) (aD aS aE b1 b2 b3 aEm aMb : String)
    (d1 d2 : Nat × Nat × Nat)
    (hdLen : ¬ 10 < (pySplitComma (pyStrip aD)).length)
    (hdAll : ∀ x ∈ pySplitComma (pyStrip aD), ¬ countryLookup (pyLower (pyStrip x)) = none)
    (hsd : parseDate (pyReplace (pyStrip aS) "/" "-") = some d1)
    (hed : parseDate (pyReplace (pyStrip aE) "/" "-") = some d2)
    (hEm : (pyStrip aEm).isEmpty = false)
    (hMb : (pyStrip aMb).isEmpty = false) :
    (travelTranscript (gfDestStore n n data2) [aD, aS, aE, b1, b2, b3, aEm, aMb]).map
        (fun r => (r.1, r.2.stage)) =
      some ([questionMap "start_date", questionMap "end_date", questionMap "addon_pre_ex",
             questionMap "addon_ffm", questionMap "addon_flight_delay", questionMap "email",
             questionMap "contact_mobile", travelDoneMsg], "quote_generation") := by
  have hcode := destCodes_nonEmpty aD hdAll
  have hdNone : (∃ x ∈ pySplitComma (pyStrip aD), countryLookup (pyLower (pyStrip x)) = none) =
      False := eq_false (by simpa using hdAll)
  have hse := parseDate_ne_empty _ _ hsd
  have hee := parseDate_ne_empty _ _ hed
  simp [travelTranscript, runTravel, processUserAnswer, determineNextQuestion, finalizePayload,
    travelDoneMsg, optStrTruthy, countryTruthy, gfDestStore, defaultStore, defaultCtx,
    getSingleTripTemplate, hdLen, hdAll, hsd, hed, hEm, hMb, hcode, hdNone, hse, hee,
    labelNonEmpty, questionNoNum, startsWithAddonFacts]

set_option maxHeartbeats 800000 in
/-- A full single-trip/group-of-households travel conversation: the
household question is asked once per declared household, and the run
shows 11 + n questions for n households — one per applicable field —
across 12 + n processed messages including the trigger. -/
theorem travel_run_single_group_family (m0 a1 aG aH : String) (hhs : List String)
    (aD aS aE b1 b2 b3 aEm aMb : String) (n : Int) (d1 d2 : Nat × Nat × Nat)
    (h1 : containsSub (pyLower (pyStrip a1)) "annual" = false)
    (hg1 : (containsSub (pyLower (pyStrip aG)) "group of families" ||
            containsSub (pyLower (pyStrip aG)) "households") = true)
    (hn : pyInt (pyStrip aH) = some n)
    (hlenq : (hhs.length : Int) = n)
    (hpos : 0 < n)
    (hok : ∀ m ∈ hhs, ∃ p0 p1 rest a b,
        (pySplitComma (pyReplace (pyStrip m) "and" ",")).map pyStrip = p0 :: p1 :: rest ∧
        pyInt p0 = some a ∧ pyInt p1 = some b)
    (hdLen : ¬ 10 < (pySplitComma (pyStrip aD)).length)
    (hdAll : ∀ x ∈ pySplitComma (pyStrip aD), ¬ countryLookup (pyLower (pyStrip x)) = none)
    (hsd : parseDate (pyReplace (pyStrip aS) "/" "-") = some d1)
    (hed : parseDate (pyReplace (pyStrip aE) "/" "-") = some d2)
    (hEm : (pyStrip aEm).isEmpty = false)
    (hMb : (pyStrip aMb).isEmpty = false) :
    (travelTranscript defaultStore
        ([m0, a1, aG, aH] ++ hhs ++ [aD, aS, aE, b1, b2, b3, aEm, aMb])).map
        (fun r => (r.1, r.2.stage)) =
      some ([questionMap "policy_type", questionMap "group_type_single",
             questionMap "num_households"] ++
            List.replicate hhs.length (questionMap "household_info") ++
            [questionMap "destination", questionMap "start_date", questionMap "end_date",
             questionMap "addon_pre_ex", questionMap "addon_ffm",
             questionMap "addon_flight_delay", questionMap "email",
             questionMap "contact_mobile", travelDoneMsg], "quote_generation") := by
  obtain ⟨data2, hloop⟩ := gf_loop hhs n 0 [] (by omega) hpos hok
  have hpre := gf_prefix m0 a1 aG aH n h1 hg1 hn hpos
  have htail := gf_tail n data2 aD aS aE b1 b2 b3 aEm aMb d1 d2 hdLen hdAll hsd hed hEm hMb
  have hL : hhs.length = (hhs.length - 1) + 1 := by omega
  cases hT : travelTranscript (gfDestStore n n data2) [aD, aS, aE, b1, b2, b3, aEm, aMb] with
  | none => rw [hT] at htail; simp at htail
  | some q =>
    rw [hT] at htail
    simp only [Option.map, Option.some.injEq, Prod.mk.injEq] at htail
    rw [List.append_assoc, travelTranscript_append, hpre]
    simp only [Option.some_bind]
    rw [travelTranscript_append, hloop]
    simp only [Option.some_bind]
    rw [hT]
    simp only [Option.map, Option.map_map]
    rw [show List.replicate hhs.length (questionMap "household_info") =
          questionMap "household_info" ::
            List.replicate (hhs.length - 1) (questionMap "household_info") from by
        rw [hL, List.replicate_succ, Nat.add_sub_cancel]]
    simp [htail.1, htail.2, Function.comp]

/-- The travel resolver only ever returns a label whose unanswered
predicate holds in the given record/context. -/
theorem travelGuard_sound (payload : Option TravelPayload) (ctx : Ctx) (l : String)
    (h : determineNextQuestion payload ctx = some l) (hne : l ≠ "DONE") :
    travelGuard l payload ctx = true := by
  cases payload with
  | some p =>
    obtain ⟨l2, hl2, hdis⟩ := determine_some_spec p ctx
    rw [h] at hl2
    cases hl2
    rcases hdis with ⟨hd, _⟩ | ⟨_, hg⟩
    · exact absurd hd hne
    · exact hg
  | none =>
    rcases determine_none_spec ctx with hn | ⟨l2, hl2, _, hg⟩
    · rw [h] at hn; cases hn
    · rw [h] at hl2; cases hl2; exact hg

/-- The family resolver only ever returns a label whose unanswered
predicate holds in the given record. -/
theorem famGuard_sound (payload : Option FamilyPayload) (l : String)
    (h : famDetermine payload = some l) (hne : l ≠ "DONE") :
    famGuard l payload = true := by
  cases payload with
  | none => cases h
  | some p =>
    unfold famDetermine at h
    dsimp only at h
    by_cases h1 : p.premiumType = none
    · rw [if_pos h1] at h; cases h; simp [famGuard, h1]
    rw [if_neg h1] at h
    by_cases h2 : (p.internal.bind fun i => i.insured_party) = none
    · rw [if_pos h2] at h; cases h; simp [famGuard, h2]
    rw [if_neg h2] at h
    by_cases h3 : p.policyInceptionDate = none
    · rw [if_pos h3] at h; cases h; simp [famGuard, h3]
    rw [if_neg h3] at h
    by_cases h4 : (p.internal.bind fun i => i.email) = none
    · rw [if_pos h4] at h; cases h; simp [famGuard, h4]
    rw [if_neg h4] at h
    by_cases h5 : (p.internal.bind fun i => i.contact_mobile) = none
    · rw [if_pos h5] at h; cases h; simp [famGuard, h5]
    rw [if_neg h5] at h
    by_cases h6 : p.promoCode = none
    · rw [if_pos h6] at h; cases h; simp [famGuard, h6]
    rw [if_neg h6] at h
    cases h
    exact absurd rfl hne





/-- C3 counterexample: an applied (empty-string) answer to the travel
start-date question is stored without any validation error, yet the
resolver returns the start-date label again: the resolver keys on
truthiness of the stored slot, not on whether an answer was applied,
and no branch-constraint reset is involved. -/
theorem claim_C3_counterexample :
    (travelTranscript defaultStore ["travel", "single", "myself", "Japan", ""]).map
        (fun r => (r.1, r.2.ctx.current_question_key, r.2.ctx.start_date)) =
      some ([questionMap "policy_type", questionMap "group_type_single",
             questionMap "destination", questionMap "start_date", questionMap "start_date"],
            some "start_date", some "") := by
  decide

/-- C3: for both products the resolver only returns labels whose
unanswered predicate (emptiness/falsiness of the stored slot, not mere
application of an answer) holds in the current record and context; and
every sequence of answers that are accepted without error, fill their
slot with a truthy value, whose numeric answers parse as integers, and
whose date answers parse as valid `YYYY-MM-DD` calendar dates (travel
dates are unvalidated at answer time, so an accepted unparseable date
would instead break the run at finalization) reaches DONE in exactly
the number of applicable fields of the chosen branch: 6 for
annual/myself, 8 for annual/family within limits, 10 for
single/myself, 12 for single/family, 11 for single/group-of-adults,
11 + n for single/group-of-households with n households, and 6
processed messages for the family product (the trigger message itself
being consumed as the premium-frequency answer). -/
theorem claim_C3 :
    (∀ (payload : Option TravelPayload) (ctx : Ctx) (l : String),
        determineNextQuestion payload ctx = some l → l ≠ "DONE" →
        travelGuard l payload ctx = true) ∧
    (∀ (payload : Option FamilyPayload) (l : String),
        famDetermine payload = some l → l ≠ "DONE" → famGuard l payload = true) ∧
    (∀ m0 a1 a2 a3 a4 a5 a6 : String,
        containsSub (pyLower (pyStrip a1)) "annual" = true →
        containsSub (pyLower (pyStrip a2)) "family" = false →
        (pyStrip a5).isEmpty = false → (pyStrip a6).isEmpty = false →
        (travelTranscript defaultStore [m0, a1, a2, a3, a4, a5, a6]).map
            (fun r => (r.1, r.2.stage)) =
          some ([questionMap "policy_type", questionMap "group_type_annual", questionMap "zone",
                 questionMap "addon_pre_ex", questionMap "email", questionMap "contact_mobile",
                 travelDoneMsg], "quote_generation")) ∧
    (∀ (m0 a1 a2 a3 a4 a5 a6 a7 a8 : String) (k4 k5 : Int),
        containsSub (pyLower (pyStrip a1)) "annual" = true →
        containsSub (pyLower (pyStrip a2)) "family" = true →
        pyInt (pyStrip a4) = some k4 → pyInt (pyStrip a5) = some k5 →
        ¬ (k4 > 2 ∨ k5 > 5) →
        (pyStrip a7).isEmpty = false → (pyStrip a8).isEmpty = false →
        (travelTranscript defaultStore [m0, a1, a2, a3, a4, a5, a6, a7, a8]).map
            (fun r => (r.1, r.2.stage)) =
          some ([questionMap "policy_type", questionMap "group_type_annual", questionMap "zone",
                 questionMap "num_adults", questionMap "num_children", questionMap "addon_pre_ex",
                 questionMap "email", questionMap "contact_mobile",
                 travelDoneMsg], "quote_generation")) ∧
    (∀ (m0 a1 aG aD aS aE b1 b2 b3 aEm aMb : String) (d1 d2 : Nat × Nat × Nat),
        containsSub (pyLower (pyStrip a1)) "annual" = false →
        (containsSub (pyLower (pyStrip aG)) "group of families" ||
         containsSub (pyLower (pyStrip aG)) "households") = false →
        containsSub (pyLower (pyStrip aG)) "group of adults" = false →
        containsSub (pyLower (pyStrip aG)) "family" = false →
        ¬ 10 < (pySplitComma (pyStrip aD)).length →
        (∀ x ∈ pySplitComma (pyStrip aD), ¬ countryLookup (pyLower (pyStrip x)) = none) →
        parseDate (pyReplace (pyStrip aS) "/" "-") = some d1 →
        parseDate (pyReplace (pyStrip aE) "/" "-") = some d2 →
        (pyStrip aEm).isEmpty = false → (pyStrip aMb).isEmpty = false →
        (travelTranscript defaultStore [m0, a1, aG, aD, aS, aE, b1, b2, b3, aEm, aMb]).map
            (fun r => (r.1, r.2.stage)) =
          some ([questionMap "policy_type", questionMap "group_type_single",
                 questionMap "destination", questionMap "start_date", questionMap "end_date",
                 questionMap "addon_pre_ex", questionMap "addon_ffm",
                 questionMap "addon_flight_delay", questionMap "email",
                 questionMap "contact_mobile", travelDoneMsg], "quote_generation")) ∧
    (∀ (m0 a1 aG a3 a4 aD aS aE b1 b2 b3 aEm aMb : String) (k3 k4 : Int)
        (d1 d2 : Nat × Nat × Nat),
        containsSub (pyLower (pyStrip a1)) "annual" = false →
        (containsSub (pyLower (pyStrip aG)) "group of families" ||
         containsSub (pyLower (pyStrip aG)) "households") = false →
        containsSub (pyLower (pyStrip aG)) "group of adults" = false →
        containsSub (pyLower (pyStrip aG)) "family" = true →
        pyInt (pyStrip a3) = some k3 → pyInt (pyStrip a4) = some k4 →
        ¬ 10 < (pySplitComma (pyStrip aD)).length →
        (∀ x ∈ pySplitComma (pyStrip aD), ¬ countryLookup (pyLower (pyStrip x)) = none) →
        parseDate (pyReplace (pyStrip aS) "/" "-") = some d1 →
        parseDate (pyReplace (pyStrip aE) "/" "-") = some d2 →
        (pyStrip aEm).isEmpty = false → (pyStrip aMb).isEmpty = false →
        (travelTranscript defaultStore [m0, a1, aG, a3, a4, aD, aS, aE, b1, b2, b3, aEm, aMb]).map
            (fun r => (r.1, r.2.stage)) =
          some ([questionMap "policy_type", questionMap "group_type_single",
                 questionMap "num_adults", questionMap "num_children", questionMap "destination",
                 questionMap "start_date", questionMap "end_date", questionMap "addon_pre_ex",
                 questionMap "addon_ffm", questionMap "addon_flight_delay", questionMap "email",
                 questionMap "contact_mobile", travelDoneMsg], "quote_generation")) ∧
    (∀ (m0 a1 aG a3 aD aS aE b1 b2 b3 aEm aMb : String) (k3 : Int) (d1 d2 : Nat × Nat × Nat),
        containsSub (pyLower (pyStrip a1)) "annual" = false →
        (containsSub (pyLower (pyStrip aG)) "group of families" ||
         containsSub (pyLower (pyStrip aG)) "households") = false →
        containsSub (pyLower (pyStrip aG)) "group of adults" = true →
        pyInt (pyStrip a3) = some k3 →
        ¬ 10 < (pySplitComma (pyStrip aD)).length →
        (∀ x ∈ pySplitComma (pyStrip aD), ¬ countryLookup (pyLower (pyStrip x)) = none) →
        parseDate (pyReplace (pyStrip aS) "/" "-") = some d1 →
        parseDate (pyReplace (pyStrip aE) "/" "-") = some d2 →
        (pyStrip aEm).isEmpty = false → (pyStrip aMb).isEmpty = false →
        (travelTranscript defaultStore [m0, a1, aG, a3, aD, aS, aE, b1, b2, b3, aEm, aMb]).map
            (fun r => (r.1, r.2.stage)) =
          some ([questionMap "policy_type", questionMap "group_type_single",
                 questionMap "num_adults_group", questionMap "destination",
                 questionMap "start_date", questionMap "end_date", questionMap "addon_pre_ex",
                 questionMap "addon_ffm", questionMap "addon_flight_delay", questionMap "email",
                 questionMap "contact_mobile", travelDoneMsg], "quote_generation")) ∧
    (∀ (m0 a1 aG aH : String) (hhs : List String) (aD aS aE b1 b2 b3 aEm aMb : String)
        (n : Int) (d1 d2 : Nat × Nat × Nat),
        containsSub (pyLower (pyStrip a1)) "annual" = false →
        (containsSub (pyLower (pyStrip aG)) "group of families" ||
         containsSub (pyLower (pyStrip aG)) "households") = true →
        pyInt (pyStrip aH) = some n →
        (hhs.length : Int) = n → 0 < n →
        (∀ m ∈ hhs, ∃ p0 p1 rest a b,
            (pySplitComma (pyReplace (pyStrip m) "and" ",")).map pyStrip = p0 :: p1 :: rest ∧
            pyInt p0 = some a ∧ pyInt p1 = some b) →
        ¬ 10 < (pySplitComma (pyStrip aD)).length →
        (∀ x ∈ pySplitComma (pyStrip aD), ¬ countryLookup (pyLower (pyStrip x)) = none) →
        parseDate (pyReplace (pyStrip aS) "/" "-") = some d1 →
        parseDate (pyReplace (pyStrip aE) "/" "-") = some d2 →
        (pyStrip aEm).isEmpty = false → (pyStrip aMb).isEmpty = false →
        (travelTranscript defaultStore
            ([m0, a1, aG, aH] ++ hhs ++ [aD, aS, aE, b1, b2, b3, aEm, aMb])).map
            (fun r => (r.1, r.2.stage)) =
          some ([questionMap "policy_type", questionMap "group_type_single",
                 questionMap "num_households"] ++
                List.replicate hhs.length (questionMap "household_info") ++
                [questionMap "destination", questionMap "start_date", questionMap "end_date",
                 questionMap "addon_pre_ex", questionMap "addon_ffm",
                 questionMap "addon_flight_delay", questionMap "email",
                 questionMap "contact_mobile", travelDoneMsg], "quote_generation")) ∧
    (∀ (m0 a1 a2 a3 a4 a5 : String) (d : Nat × Nat × Nat),
        parseDate (pyReplace (pyLower (pyStrip a2)) "/" "-") = some d →
        (famTranscript defaultStore [m0, a1, a2, a3, a4, a5]).map (fun r => (r.1, r.2.stage)) =
          some ([famQuestionMap "insured_party", famQuestionMap "policyInceptionDate",
                 famQuestionMap "email", famQuestionMap "contact_mobile",
                 famQuestionMap "promoCode", famDoneMsg], "quote_generation")) :=
  ⟨travelGuard_sound, famGuard_sound, travel_run_annual_myself, travel_run_annual_family,
   travel_run_single_myself, travel_run_single_family, travel_run_single_group_adults,
   travel_run_single_group_family, family_run_linear⟩

/-- Witness for C3 at concrete inputs: the resolver call on a fresh
single-trip record returns the group-type label, whose unanswered
predicate holds, and a concrete annual/myself conversation completes
in exactly six questions. -/
theorem claim_C3_witness :
    travelGuard "group_type_single" (some getSingleTripTemplate)
        { defaultCtx with current_question_key := some "policy_type",
                          policy_type_choice := some "single" } = true ∧
    (travelTranscript defaultStore
        ["travel", "annual", "myself", "asia", "no", "a@b.c", "12345678"]).map
        (fun r => (r.1, r.2.stage)) =
      some ([questionMap "policy_type", questionMap "group_type_annual", questionMap "zone",
             questionMap "addon_pre_ex", questionMap "email", questionMap "contact_mobile",
             travelDoneMsg], "quote_generation") :=
  ⟨claim_C3.1 (some getSingleTripTemplate)
      { defaultCtx with current_question_key := some "policy_type",
                        policy_type_choice := some "single" }
      "group_type_single" (by decide) (by decide),
   claim_C3.2.2.1 "travel" "annual" "myself" "asia" "no" "a@b.c" "12345678"
      (by decide) (by decide) (by decide) (by decide)⟩

end Hlas
